import Mathlib

/-!
Shallow embedding of the tech_hunter command gateway
(`api/telegram-webhook.js` and its direct-trigger sibling, the scan
endpoint variant embedded alongside it, confirmed by `tests_js/`).

JavaScript values that flow through the handlers are modelled by the
inductive `Js`; JavaScript numbers by `JsNum` (NaN and infinities kept
explicit, finite values as rationals, which is exact for every comparison
the code performs).  Host primitives that the code calls but does not
define (`JSON.parse`, `Number(...)` coercion, `encodeURIComponent`) are
parameters bundled in `Host`.  Network effects (`fetch`) are resolved by
an `Oracle` mapping the index of each outbound call to an HTTP response;
every outbound call is recorded in a trace so that theorems can count and
inspect the calls a request provokes.
-/

/-- JavaScript numbers: NaN, signed infinity, or a finite value (exact
rational, sufficient for the finiteness and sign tests the code makes). -/
inductive JsNum where
  | nan : JsNum
  | inf : Bool → JsNum
  | val : ℚ → JsNum
deriving DecidableEq

/-- Whether a JavaScript number is finite (`Number.isFinite`). -/
def JsNum.isFiniteNum : JsNum → Bool
  | .val _ => true
  | _ => false

/-- JavaScript values as they appear in webhook bodies and payloads. -/
inductive Js where
  | undefined : Js
  | null : Js
  | bool : Bool → Js
  | num : JsNum → Js
  | str : String → Js
  | arr : List Js → Js
  | obj : List (String × Js) → Js

/-- JavaScript truthiness. -/
def jsTruthy : Js → Bool
  | .undefined => false
  | .null => false
  | .bool b => b
  | .num .nan => false
  | .num (.inf _) => true
  | .num (.val q) => q != 0
  | .str s => s != ""
  | .arr _ => true
  | .obj _ => true

/-- Models `value && typeof value === "object"`: truthy and of object type
(arrays included, `null` excluded because it is falsy). -/
def jsIsObjLike : Js → Bool
  | .arr _ => true
  | .obj _ => true
  | _ => false

/-- Property access `v.k` (undefined on non-objects and absent keys,
matching optional chaining on possibly-null receivers). -/
def jsGet (v : Js) (k : String) : Js :=
  match v with
  | .obj fields =>
      match fields.find? (fun p => p.1 == k) with
      | some p => p.2
      | none => .undefined
  | _ => .undefined

/-- Object spread-with-override `\x7b...c, k: v\x7d`: replace every binding of
`k` (JavaScript objects never hold duplicate keys), append if absent. -/
def jsSetField (fields : List (String × Js)) (k : String) (v : Js) :
    List (String × Js) :=
  if fields.any (fun p => p.1 == k) then
    fields.map (fun p => if p.1 == k then (k, v) else p)
  else
    fields ++ [(k, v)]

/-! String primitives.  JavaScript string methods are modelled over the
character list of the string (all texts involved are ASCII), with
computable definitions that the kernel can evaluate on literals. -/

/-- Strip leading and trailing whitespace from a character list. -/
def listTrim (cs : List Char) : List Char :=
  ((cs.dropWhile Char.isWhitespace).reverse.dropWhile Char.isWhitespace).reverse

/-- Models `s.trim()`. -/
def jsTrim (s : String) : String := ⟨listTrim s.toList⟩

/-- Models `s.startsWith(pre)`. -/
def jsStartsWith (s pre : String) : Bool := pre.toList.isPrefixOf s.toList

/-- Models `s.endsWith(suf)`. -/
def jsEndsWith (s suf : String) : Bool :=
  suf.toList.reverse.isPrefixOf s.toList.reverse

/-- Models `s.toLowerCase()` (ASCII). -/
def jsToLower (s : String) : String := ⟨s.toList.map Char.toLower⟩

/-- The first `n` characters dropped (`s.slice(n)`). -/
def jsDrop (s : String) (n : Nat) : String := ⟨s.toList.drop n⟩

/-- The last `n` characters dropped. -/
def jsDropRight (s : String) (n : Nat) : String :=
  ⟨s.toList.take (s.toList.length - n)⟩

/-- The longest prefix of characters satisfying `p`. -/
def jsTakeWhileStr (p : Char → Bool) (s : String) : String :=
  ⟨s.toList.takeWhile p⟩

/-- Split a character list at every occurrence of `sep` (JavaScript
`split` semantics: an empty input yields one empty piece). -/
def splitOnCharGo (sep : Char) : List Char → List Char → List (List Char)
  | [], acc => [acc.reverse]
  | c :: rest, acc =>
      if c = sep then acc.reverse :: splitOnCharGo sep rest []
      else splitOnCharGo sep rest (c :: acc)

/-- Models `s.split(",")`. -/
def jsSplitOnComma (s : String) : List String :=
  (splitOnCharGo ',' s.toList []).map (fun cs => ⟨cs⟩)

/-- Models `parts.join("\n")`. -/
def joinNl : List String → String
  | [] => ""
  | [x] => x
  | x :: xs => x ++ "\n" ++ joinNl xs

/-- Models `x.toLowerCase()`: succeeds only on strings, otherwise the runtime
raises a TypeError (caught by the router's top-level handler). -/
def jsToLowerCase : Js → Except String String
  | .str s => .ok (jsToLower s)
  | _ => .error "TypeError: toLowerCase is not a function"

/-- Numeric value of a decimal digit list, most significant first. -/
def digitsVal (cs : List Char) : Nat :=
  cs.foldl (fun acc c => acc * 10 + (c.toNat - 48)) 0

/-- Result of `Number.parseInt`: NaN when no digits are found, a signed
Infinity when the digit value rounds beyond the IEEE-754 double range,
otherwise the parsed value.  Every finite double produced by parseInt
on a digit string is integer-valued, so an exact `Int` carries it. -/
inductive ParsedInt where
  | nan : ParsedInt
  | inf : Bool → ParsedInt
  | val : Int → ParsedInt
deriving DecidableEq

/-- Round a natural number to the nearest IEEE-754 double
(round-to-nearest, ties-to-even), returned as an exact integer; `none`
means the value overflows to Infinity.  Integers below 2^53 are exact;
above, the value is truncated to a 53-bit mantissa with the usual tie
break, and results reaching 2^1024 overflow. -/
def roundToDouble (n : Nat) : Option Nat :=
  if n < 2 ^ 53 then some n
  else
    let shift := n.log2 - 52
    let q := n / 2 ^ shift
    let r := n % 2 ^ shift
    let half := 2 ^ (shift - 1)
    let q2 := if half < r ∨ (r = half ∧ q % 2 = 1) then q + 1 else q
    let v := q2 * 2 ^ shift
    if 2 ^ 1024 ≤ v then none else some v

/-- Models `Number.parseInt(s, 10)`: skip leading whitespace, optional
sign, then the longest prefix of decimal digits; no digits gives NaN,
and the digit value is converted to a double, overflowing to a signed
Infinity from about 1.8e308 on, exactly where `Number.isFinite` starts
to fail on the result. -/
def parseIntTen (s : String) : ParsedInt :=
  let cs := s.toList.dropWhile Char.isWhitespace
  let (neg, rest) :=
    match cs with
    | '-' :: t => (true, t)
    | '+' :: t => (false, t)
    | t => (false, t)
  let digits := rest.takeWhile Char.isDigit
  if digits.isEmpty then .nan
  else
    match roundToDouble (digitsVal digits) with
    | none => .inf neg
    | some v => .val (if neg then -(v : Int) else (v : Int))

/-- Host primitives used by the source but provided by the JavaScript
runtime, not defined in the repository. -/
structure Host where
  jsonParse : String → Except Unit Js
  toNumber : Js → JsNum
  encodeURIComponent : String → String

/-- An HTTP response as seen by the callers of `fetch`. -/
structure HttpResp where
  ok : Bool
  status : Nat
  text : String

/-- Physical consistency of a `fetch` response: `ok` holds exactly on
2xx statuses (guaranteed by the Fetch API). -/
def HttpResp.wf (r : HttpResp) : Prop :=
  r.ok = (decide (200 ≤ r.status) && decide (r.status < 300))

/-- The response to the n-th outbound `fetch` of an invocation. -/
def Oracle : Type := Nat → HttpResp

/-- The payload of a router dispatch event (`client_payload`). -/
structure DispatchPayload where
  source : String
  command : String
  mode : Option String := none
  chat_id : String
  user_id : String
  products : Option (List Js) := none
  limit : Option Int := none

/-- The payload of a direct-trigger (scan endpoint) dispatch event. -/
structure ScanPayload where
  source : String
  command : String
  products : List Js

/-- One outbound network call. -/
inductive Call where
  | sendMessage : Int → String → Call
  | dispatch : String → DispatchPayload → Call
  | dispatchScan : String → ScanPayload → Call
  | api : String → String → Option (String × String) → Call

/-- Effect state of one invocation: number of fetches so far and the
trace of outbound calls. -/
structure St where
  n : Nat := 0
  trace : List Call := []

/-- Record one outbound call and obtain the oracle's response for it. -/
def record (o : Oracle) (c : Call) (s : St) : HttpResp × St :=
  (o s.n, { n := s.n + 1, trace := s.trace ++ [c] })

/-- Sequencing of fallible effectful steps (the `await` chain inside a
`try` block: an error short-circuits to the enclosing catch). -/
def andThen (x : Except String α × St) (f : α → St → Except String β × St) :
    Except String β × St :=
  match x with
  | (.ok a, s) => f a s
  | (.error e, s) => (.error e, s)

/-- Truthiness of an optional environment string (`undefined` and the
empty string are falsy). -/
def strTruthy : Option String → Bool
  | none => false
  | some s => s != ""

namespace TelegramWebhook

/-- Models `envOrDefault(name, fallback)` from `api/telegram-webhook.js`. -/
def envOrDefault (value : Option String) (fallback : String) : String :=
  match value with
  | none => fallback
  | some v => if v == "" || jsTrim v == "" then fallback else jsTrim v

/-- Models `parseAllowedChatIds`: comma-split, trim, drop empties.  The source
builds a `Set`; membership is all that is consumed, so a list suffices. -/
def parseAllowedChatIds (value : Option String) : List String :=
  ((jsSplitOnComma (value.getD "")).map jsTrim).filter (fun s => s != "")

/-- Models `stripCodeFence`: trim, and when the text starts with a triple
backtick fence, drop the opening fence (with optional language tag and
following whitespace), a trailing fence, and trim again. -/
def stripCodeFence (raw : String) : String :=
  let text := jsTrim raw
  if ¬ jsStartsWith text "```" then text
  else
    let rest := text.toList.drop 3
    let rest := rest.dropWhile (fun ch => ch.isAlpha)
    let rest := rest.dropWhile (fun ch => ch.isWhitespace)
    let t1 : String := ⟨rest⟩
    let t2 := if jsEndsWith t1 "```" then jsDropRight t1 3 else t1
    jsTrim t2

/-- Models `parseProductsArg`: `JSON.parse` the de-fenced argument (a parse
error propagates as the thrown exception), keep an array's truthy
object-typed members, wrap a single object, anything else is empty. -/
def parseProductsArg (jsonParse : String → Except Unit Js) (arg : String) :
    Except Unit (List Js) :=
  let raw := stripCodeFence arg
  match jsonParse raw with
  | .error e => .error e
  | .ok (.arr items) => .ok (items.filter (fun item => jsIsObjLike item))
  | .ok parsed => if jsIsObjLike parsed then .ok [parsed] else .ok []

/-- The fixed strategy-profile vocabulary (`STRATEGY_PROFILES`). -/
def STRATEGY_PROFILES : List String := ["conservative", "balanced", "aggressive"]

/-- Result of `parseProfileArg`. -/
inductive ProfileArg where
  | showMode : ProfileArg
  | invalidMode : String → ProfileArg
  | setMode : String → ProfileArg
deriving DecidableEq

/-- Models `parseProfileArg`: show on empty/`show`/`get`/`status`, set on a
known profile token, invalid otherwise. -/
def parseProfileArg (rawArg : String) : ProfileArg :=
  let raw := jsToLower (jsTrim rawArg)
  if raw == "" || raw == "show" || raw == "get" || raw == "status" then .showMode
  else
    let token := jsTakeWhileStr (fun ch => !ch.isWhitespace) raw
    if token ∈ STRATEGY_PROFILES then .setMode token else .invalidMode token

/-- Models `commandHelpText()`. -/
def commandHelpText : String :=
  joinNl
    [ "Tech_Sniper_IT comandi:",
      "/start - Inizializza il bot",
      "/help - Mostra questa guida",
      "/id - Mostra chat_id corrente",
      "/rules - Mostra regole arbitraggio",
      "/scan [json_prodotto|json_array] - Avvia scan su GitHub Actions",
      "/smoke - Test veloce (pochi prodotti) su GitHub Actions",
      "/status - Stato runtime (via GitHub Actions)",
      "/last [n] - Ultime opportunita da Supabase (via GitHub Actions)",
      "/profile [show|conservative|balanced|aggressive] - Mostra/imposta strategy profile" ]

/-- Models `rulesText()`. -/
def rulesText : String :=
  joinNl
    [ "Regole attive:",
      "photography -> MPB + Rebuy (max)",
      "apple_phone -> TrendDevice + Rebuy (max)",
      "general_tech -> Rebuy",
      "Condizioni target: Grado A / Ottimo / Come nuovo",
      "Notifica quando spread > MIN_SPREAD_EUR" ]

/-- Models `text.split(/\s+/)[0] || ""` on trimmed command text. -/
def commandTokenOf (text : String) : String :=
  jsTakeWhileStr (fun ch => !ch.isWhitespace) text

/-- Models `commandToken.replace(/^\/([^@\s]+).*$/, "$1").toLowerCase()`: when
the token starts with the slash and has at least one following
non-`@`/non-space character, the command name is that run, lower-cased;
otherwise the regex does not match and the whole token is lower-cased. -/
def commandNameOfToken (tok : String) : String :=
  let grp := jsTakeWhileStr (fun ch => ch != '@' && !ch.isWhitespace) (jsDrop tok 1)
  if jsStartsWith tok "/" && grp != "" then jsToLower grp else jsToLower tok

/-- The remainder after the command token, trimmed (`args`). -/
def argsOf (text : String) : String :=
  jsTrim (jsDrop text (commandTokenOf text).toList.length)

/-- Models `String(userId || "")`: the empty string when the sender id is
missing or falsy (0), its decimal rendering otherwise. -/
def idOrEmptyStr (userId : Option Int) : String :=
  match userId with
  | none => ""
  | some n => if n = 0 then "" else toString n

/-- Models `sendTelegramMessage`: one fetch (the URL embeds the bot token); a
non-ok response raises with the status and body text. -/
def sendTelegramMessage (o : Oracle) (botToken : String) (chatId : Int)
    (text : String) (s : St) : Except String Unit × St :=
  let _ := botToken
  let (r, s1) := record o (.sendMessage chatId text) s
  if r.ok then (.ok (), s1)
  else (.error ("Telegram sendMessage failed: " ++ toString r.status ++ " " ++ r.text), s1)

/-- Models `dispatchToGitHub`: one fetch to the dispatches resource (the URL
embeds owner and repo, the header the token); a non-ok response raises. -/
def dispatchToGitHub (o : Oracle) (githubToken owner repo eventType : String)
    (payload : DispatchPayload) (s : St) : Except String Unit × St :=
  let _ := (githubToken, owner, repo)
  let (r, s1) := record o (.dispatch eventType payload) s
  if r.ok then (.ok (), s1)
  else (.error ("GitHub dispatch failed: " ++ toString r.status ++ " " ++ r.text), s1)

/-- Return value of `githubApiRequest`. -/
structure ApiResult where
  ok : Bool
  status : Nat
  text : String
  json : Option Js

/-- Models `githubApiRequest`: one fetch; the body text is JSON-parsed with a
swallowed parse failure (`json` is null on failure or empty body). -/
def githubApiRequest (host : Host) (o : Oracle) (method path : String)
    (body : Option (String × String)) (s : St) : ApiResult × St :=
  let (r, s1) := record o (.api method path body) s
  let json := if r.text == "" then none else (host.jsonParse r.text).toOption
  ({ ok := r.ok, status := r.status, text := r.text, json := json }, s1)

/-- Models `getGitHubVariable`: GET the variable resource; 404 is the non-error
absent result (null); any other non-ok raises; otherwise
`result.json || null`. -/
def getGitHubVariable (host : Host) (o : Oracle) (owner repo name : String)
    (s : St) : Except String Js × St :=
  let (result, s1) := githubApiRequest host o "GET"
    ("/repos/" ++ owner ++ "/" ++ repo ++ "/actions/variables/" ++
      host.encodeURIComponent name) none s
  if result.status = 404 then (.ok .null, s1)
  else if ¬ result.ok then
    (.error ("GitHub variable read failed: " ++ toString result.status ++ " " ++ result.text), s1)
  else
    let j := result.json.getD .null
    (.ok (if jsTruthy j then j else .null), s1)

/-- Models `upsertGitHubVariable`: PATCH the variable resource first; on a 404
fall back to POST-create with the same `(name, value)` body; any other
non-ok response from either step raises. -/
def upsertGitHubVariable (host : Host) (o : Oracle) (owner repo name value : String)
    (s : St) : Except String Unit × St :=
  let (update, s1) := githubApiRequest host o "PATCH"
    ("/repos/" ++ owner ++ "/" ++ repo ++ "/actions/variables/" ++
      host.encodeURIComponent name) (some (name, value)) s
  if update.ok then (.ok (), s1)
  else if update.status ≠ 404 then
    (.error ("GitHub variable update failed: " ++ toString update.status ++ " " ++ update.text), s1)
  else
    let (create, s2) := githubApiRequest host o "POST"
      ("/repos/" ++ owner ++ "/" ++ repo ++ "/actions/variables")
      (some (name, value)) s1
    if ¬ create.ok then
      (.error ("GitHub variable create failed: " ++ toString create.status ++ " " ++ create.text), s2)
    else (.ok (), s2)

/-- Handler response bodies: HTTP status plus the JSON flags the router
emits (`ok`, `ignored`, `denied`, `error`). -/
structure Resp where
  status : Nat
  ok : Bool
  ignored : Bool := false
  denied : Bool := false
  error : Option String := none
deriving DecidableEq

/-- Environment configuration read by the router handler. -/
structure RouterEnv where
  webhookSecret : Option String := none
  botToken : Option String := none
  githubToken : Option String := none
  githubOwner : Option String := none
  githubRepo : Option String := none
  eventTypeEnv : Option String := none
  allowedChatIds : Option String := none
  strategyProfileEnv : Option String := none

/-- A Telegram message envelope: `\x7b chat: \x7b id \x7d, from: \x7b id \x7d, text \x7d`
collapsed to the three fields the handler reads (a missing `chat` and a
missing `chat.id` are indistinguishable to the optional chains). -/
structure Msg where
  chatId : Option Int := none
  fromId : Option Int := none
  text : Option String := none

/-- An inbound Update body: at most one of message / edited_message. -/
structure Update where
  message : Option Msg := none
  edited_message : Option Msg := none

/-- An inbound HTTP request to the router. -/
structure RouterReq where
  method : String
  secretHeader : Option String := none
  body : Option Update := none

/-- Models `update.message || update.edited_message` on `req.body || \x7b\x7d`. -/
def routerMessage (req : RouterReq) : Option Msg :=
  let update := req.body.getD {}
  update.message <|> update.edited_message

/-- Models `message?.chat?.id`. -/
def routerChatId (req : RouterReq) : Option Int :=
  (routerMessage req).bind Msg.chatId

/-- Models `message?.from?.id`. -/
def routerUserId (req : RouterReq) : Option Int :=
  (routerMessage req).bind Msg.fromId

/-- Models `(message?.text || "").trim()`. -/
def routerText (req : RouterReq) : String :=
  jsTrim (((routerMessage req).bind Msg.text).getD "")

/-- Truthiness of the optional numeric chat identifier (`!chatId`). -/
def intOptTruthy : Option Int → Bool
  | none => false
  | some n => n != 0

/-- Everything a command branch of the `try` block consumes. -/
structure Ctx where
  host : Host
  o : Oracle
  botToken : String
  chatId : Int
  userId : Option Int
  args : String
  githubReady : Bool
  githubToken : String
  githubOwner : String
  githubRepo : String
  eventType : String
  strategyProfileEnv : Option String

/-- The `\x7b ok: true \x7d` 200 acknowledgment every handler branch returns. -/
def ok200 : Resp := { status := 200, ok := true }

/-- The configuration-missing reply shared by the backend-dependent
branches (`!githubReady`). -/
def configMissingReply (c : Ctx) (s : St) : Except String Resp × St :=
  andThen (sendTelegramMessage c.o c.botToken c.chatId
      "Config mancante su Vercel: GITHUB_TOKEN/GITHUB_OWNER/GITHUB_REPO." s)
    (fun _ s1 => (.ok ok200, s1))

/-- The `/start` branch. -/
def startCmd (c : Ctx) (s : St) : Except String Resp × St :=
  andThen (sendTelegramMessage c.o c.botToken c.chatId
      ("Bot operativo.\n" ++ commandHelpText) s)
    (fun _ s1 => (.ok ok200, s1))

/-- The `/help` branch. -/
def helpCmd (c : Ctx) (s : St) : Except String Resp × St :=
  andThen (sendTelegramMessage c.o c.botToken c.chatId commandHelpText s)
    (fun _ s1 => (.ok ok200, s1))

/-- The `/id` branch. -/
def idCmd (c : Ctx) (s : St) : Except String Resp × St :=
  andThen (sendTelegramMessage c.o c.botToken c.chatId
      ("chat_id: " ++ toString c.chatId) s)
    (fun _ s1 => (.ok ok200, s1))

/-- The `/rules` branch. -/
def rulesCmd (c : Ctx) (s : St) : Except String Resp × St :=
  andThen (sendTelegramMessage c.o c.botToken c.chatId rulesText s)
    (fun _ s1 => (.ok ok200, s1))

/-- The `/profile` branch: three-way on the parsed argument. -/
def profileCmd (c : Ctx) (s : St) : Except String Resp × St :=
  if ¬ c.githubReady then configMissingReply c s
  else
    match parseProfileArg c.args with
    | .invalidMode _ =>
        andThen (sendTelegramMessage c.o c.botToken c.chatId
            "Valore non valido. Usa: /profile conservative | balanced | aggressive" s)
          (fun _ s1 => (.ok ok200, s1))
    | .showMode =>
        andThen (getGitHubVariable c.host c.o c.githubOwner c.githubRepo
            "STRATEGY_PROFILE" s)
          (fun varJs s1 =>
            let v := jsGet varJs "value"
            let cur : Except String String :=
              if jsTruthy v then jsToLowerCase v
              else .ok (jsToLower (envOrDefault c.strategyProfileEnv "balanced"))
            match cur with
            | .error e => (.error e, s1)
            | .ok current =>
                andThen (sendTelegramMessage c.o c.botToken c.chatId
                    ("Profilo strategia attivo: " ++ current ++
                      "\nUsa /profile conservative|balanced|aggressive") s1)
                  (fun _ s2 => (.ok ok200, s2)))
    | .setMode value =>
        andThen (upsertGitHubVariable c.host c.o c.githubOwner c.githubRepo
            "STRATEGY_PROFILE" value s)
          (fun _ s1 =>
            andThen (sendTelegramMessage c.o c.botToken c.chatId
                ("Profilo strategia aggiornato a \x27" ++ value ++
                  "\x27. Sara applicato alle prossime run.") s1)
              (fun _ s2 => (.ok ok200, s2)))

/-- The dispatch-then-reply tail of the `/scan` branch. -/
def scanDispatch (c : Ctx) (products : Option (List Js)) (s : St) :
    Except String Resp × St :=
  andThen (dispatchToGitHub c.o c.githubToken c.githubOwner c.githubRepo
      c.eventType
      { source := "telegram", command := "scan",
        chat_id := toString c.chatId, user_id := idOrEmptyStr c.userId,
        products := products } s)
    (fun _ s1 =>
      match products with
      | some ps =>
          andThen (sendTelegramMessage c.o c.botToken c.chatId
              ("Scan accodato su GitHub Actions (" ++ toString ps.length ++
                " prodotti).") s1)
            (fun _ s2 => (.ok ok200, s2))
      | none =>
          andThen (sendTelegramMessage c.o c.botToken c.chatId
              "Scan accodato su GitHub Actions (modalita default: sorgenti prodotto configurate nel worker)." s1)
            (fun _ s2 => (.ok ok200, s2)))

/-- The `/scan` branch: optional JSON argument, parsed inside an inner
try whose failure is reported in-chat; an empty product list is
likewise reported; otherwise dispatch and confirm. -/
def scanCmd (c : Ctx) (s : St) : Except String Resp × St :=
  if ¬ c.githubReady then configMissingReply c s
  else
    match (if c.args != "" then some (parseProductsArg c.host.jsonParse c.args) else none) with
    | some (.error _) =>
        andThen (sendTelegramMessage c.o c.botToken c.chatId
            "JSON non valido. Invia un oggetto o array JSON." s)
          (fun _ s1 => (.ok ok200, s1))
    | some (.ok ps) =>
        if ps.isEmpty then
          andThen (sendTelegramMessage c.o c.botToken c.chatId
              "Payload vuoto: nessun prodotto valido." s)
            (fun _ s1 => (.ok ok200, s1))
        else scanDispatch c (some ps) s
    | none => scanDispatch c none s

/-- The fixed product list of the `/smoke` branch. -/
def smokeProducts : List Js :=
  [ .obj [("title", .str "Apple iPhone 14 128GB"),
          ("price_eur", .num (.val 650)),
          ("category", .str "apple_phone")],
    .obj [("title", .str "Apple Watch Ultra 2 GPS + Cellular 49mm"),
          ("price_eur", .num (.val 750)),
          ("category", .str "smartwatch")],
    .obj [("title", .str "Valve Steam Deck OLED 1TB"),
          ("price_eur", .num (.val 420)),
          ("category", .str "handheld_console")] ]

/-- The `/smoke` branch: dispatch the fixed list under mode "smoke". -/
def smokeCmd (c : Ctx) (s : St) : Except String Resp × St :=
  if ¬ c.githubReady then configMissingReply c s
  else
    andThen (dispatchToGitHub c.o c.githubToken c.githubOwner c.githubRepo
        c.eventType
        { source := "telegram", command := "scan", mode := some "smoke",
          chat_id := toString c.chatId, user_id := idOrEmptyStr c.userId,
          products := some smokeProducts } s)
      (fun _ s1 =>
        andThen (sendTelegramMessage c.o c.botToken c.chatId
            ("Smoke test accodato su GitHub Actions (" ++
              toString smokeProducts.length ++ " prodotti).") s1)
          (fun _ s2 => (.ok ok200, s2)))

/-- The `/status` branch: parameterless dispatch plus confirmation. -/
def statusCmd (c : Ctx) (s : St) : Except String Resp × St :=
  if ¬ c.githubReady then configMissingReply c s
  else
    andThen (dispatchToGitHub c.o c.githubToken c.githubOwner c.githubRepo
        c.eventType
        { source := "telegram", command := "status",
          chat_id := toString c.chatId, user_id := idOrEmptyStr c.userId } s)
      (fun _ s1 =>
        andThen (sendTelegramMessage c.o c.botToken c.chatId
            "Richiesta status accodata su GitHub Actions." s1)
          (fun _ s2 => (.ok ok200, s2)))

/-- Models `MAX_LAST_LIMIT`. -/
def MAX_LAST_LIMIT : Int := 10

/-- The limit computed by the `/last` branch:
`Number.parseInt(args || "5", 10)` clamped to `[1, MAX_LAST_LIMIT]`
when the parse is a finite number (`Number.isFinite`), and 5 when it is
NaN or a signed Infinity. -/
def lastLimit (args : String) : Int :=
  match parseIntTen (if args == "" then "5" else args) with
  | .val requested => max 1 (min requested MAX_LAST_LIMIT)
  | _ => 5

/-- The `/last` branch: numeric-bounded dispatch plus confirmation. -/
def lastCmd (c : Ctx) (s : St) : Except String Resp × St :=
  if ¬ c.githubReady then configMissingReply c s
  else
    let limit := lastLimit c.args
    andThen (dispatchToGitHub c.o c.githubToken c.githubOwner c.githubRepo
        c.eventType
        { source := "telegram", command := "last",
          chat_id := toString c.chatId, user_id := idOrEmptyStr c.userId,
          limit := some limit } s)
      (fun _ s1 =>
        andThen (sendTelegramMessage c.o c.botToken c.chatId
            ("Richiesta ultime opportunita (" ++ toString limit ++
              ") accodata su GitHub Actions.") s1)
          (fun _ s2 => (.ok ok200, s2)))

/-- The unknown-command fallthrough. -/
def unknownCmd (c : Ctx) (s : St) : Except String Resp × St :=
  andThen (sendTelegramMessage c.o c.botToken c.chatId
      ("Comando non riconosciuto.\n" ++ commandHelpText) s)
    (fun _ s1 => (.ok ok200, s1))

/-- The body of the router's `try` block: the if-chain selecting the
command handler. -/
def tryBody (c : Ctx) (command : String) (s : St) : Except String Resp × St :=
  if command == "start" then startCmd c s
  else if command == "help" then helpCmd c s
  else if command == "id" then idCmd c s
  else if command == "rules" then rulesCmd c s
  else if command == "profile" then profileCmd c s
  else if command == "scan" then scanCmd c s
  else if command == "smoke" then smokeCmd c s
  else if command == "status" then statusCmd c s
  else if command == "last" then lastCmd c s
  else unknownCmd c s

/-- The context the command branches receive, assembled from the
environment and the request exactly as the handler's local constants. -/
def routerCtx (env : RouterEnv) (host : Host) (o : Oracle) (req : RouterReq) :
    Ctx :=
  let text := routerText req
  { host := host, o := o, botToken := env.botToken.getD "",
    chatId := (routerChatId req).getD 0,
    userId := routerUserId req, args := argsOf text,
    githubReady := strTruthy env.githubToken && strTruthy env.githubOwner
      && strTruthy env.githubRepo,
    githubToken := env.githubToken.getD "",
    githubOwner := env.githubOwner.getD "",
    githubRepo := env.githubRepo.getD "",
    eventType := envOrDefault env.eventTypeEnv "scan",
    strategyProfileEnv := env.strategyProfileEnv }

/-- The parsed command name of a request. -/
def routerCommand (req : RouterReq) : String :=
  commandNameOfToken (commandTokenOf (routerText req))

/-- The router handler (`module.exports` of `api/telegram-webhook.js`):
method gate, secret gate, bot-credential gate, structural gate,
allowlist gate, then the guarded command dispatch with its catch-all. -/
def handler (env : RouterEnv) (host : Host) (o : Oracle) (req : RouterReq) :
    Resp × St :=
  let s0 : St := {}
  if req.method != "POST" then
    ({ status := 405, ok := false, error := some "Method not allowed" }, s0)
  else if strTruthy env.webhookSecret && req.secretHeader != env.webhookSecret then
    ({ status := 401, ok := false, error := some "Invalid webhook secret" }, s0)
  else if ¬ strTruthy env.botToken then
    ({ status := 500, ok := false, error := some "Missing env configuration" }, s0)
  else
    let text := routerText req
    if ¬ (intOptTruthy (routerChatId req) && jsStartsWith text "/") then
      ({ status := 200, ok := true, ignored := true }, s0)
    else
      let chatId := (routerChatId req).getD 0
      let botToken := env.botToken.getD ""
      let allowed := parseAllowedChatIds env.allowedChatIds
      if !allowed.isEmpty && !(allowed.contains (toString chatId)) then
        let (_, s1) := sendTelegramMessage o botToken chatId "Chat non autorizzata." s0
        ({ status := 200, ok := true, denied := true }, s1)
      else
        let c : Ctx := routerCtx env host o req
        let command := routerCommand req
        match tryBody c command s0 with
        | (.ok resp, s1) => (resp, s1)
        | (.error e, s1) =>
            let (_, s2) := sendTelegramMessage o botToken chatId
              ("Errore comando: " ++ e) s1
            ({ status := 200, ok := false, error := some e }, s2)

end TelegramWebhook

namespace ScanApi

/-- Models `envOrDefault` of the scan endpoint (identical text). -/
def envOrDefault (value : Option String) (fallback : String) : String :=
  match value with
  | none => fallback
  | some v => if v == "" || jsTrim v == "" then fallback else jsTrim v

/-- The `title` local of `normalize`: a string title trimmed, anything
else counts as empty. -/
def titleOf (candidate : Js) : String :=
  match jsGet candidate "title" with
  | .str s => jsTrim s
  | _ => ""

/-- The `priceRaw` local of `normalize`: `price_eur ?? price` (nullish
coalescing). -/
def priceRawOf (candidate : Js) : Js :=
  match jsGet candidate "price_eur" with
  | .undefined => jsGet candidate "price"
  | .null => jsGet candidate "price"
  | pe => pe

/-- Models `normalize` (inner function of `parseProducts`): reject non-objects;
trim a string `title` (anything else counts as empty); coerce
`price_eur ?? price` with `Number(...)`; reject an empty title, a
non-finite price, or a non-positive price; otherwise spread the
candidate with `title` and `price_eur` overwritten. -/
def normalize (toNumber : Js → JsNum) (candidate : Js) : Option Js :=
  if ¬ jsIsObjLike candidate then none
  else
    match toNumber (priceRawOf candidate) with
    | .val q =>
        if titleOf candidate == "" ∨ q ≤ 0 then none
        else
          match candidate with
          | .obj fields =>
              some (.obj (jsSetField
                (jsSetField fields "title" (.str (titleOf candidate)))
                "price_eur" (.num (.val q))))
          | _ => none
    | _ => none

/-- Models `parseProducts` of the scan endpoint: normalize an array's members
dropping rejections, or a single `products` object, or — failing a
`products` field — the payload itself when it has a truthy `title`. -/
def parseProducts (toNumber : Js → JsNum) (payload : Js) : List Js :=
  match jsGet payload "products" with
  | .arr items => items.filterMap (normalize toNumber)
  | value =>
      if jsIsObjLike value then
        match normalize toNumber value with
        | some normalized => [normalized]
        | none => []
      else if jsIsObjLike payload ∧ jsTruthy (jsGet payload "title") then
        match normalize toNumber payload with
        | some normalized => [normalized]
        | none => []
      else []

/-- Models `dispatchToGitHub` of the scan endpoint: one fetch to the
dispatches resource; a non-ok response raises. -/
def dispatchToGitHub (o : Oracle) (githubToken owner repo eventType : String)
    (payload : ScanPayload) (s : St) : Except String Unit × St :=
  let _ := (githubToken, owner, repo)
  let (r, s1) := record o (.dispatchScan eventType payload) s
  if r.ok then (.ok (), s1)
  else (.error ("GitHub dispatch failed: " ++ toString r.status ++ " " ++ r.text), s1)

/-- Environment configuration read by the scan endpoint. -/
structure ScanEnv where
  scanSecret : Option String := none
  githubToken : Option String := none
  githubOwner : Option String := none
  githubRepo : Option String := none
  eventTypeEnv : Option String := none

/-- An inbound HTTP request to the scan endpoint (`req.body` already
JSON-decoded by the platform). -/
structure ScanReq where
  method : String
  authHeader : Option String := none
  body : Option Js := none

/-- Response of the scan endpoint. -/
structure ScanResp where
  status : Nat
  ok : Bool
  error : Option String := none
  queued : Bool := false
  product_count : Option Nat := none
deriving DecidableEq

/-- Models `!scanSecret || !scanSecret.trim()` negated: the secret is usable. -/
def scanSecretUsable (scanSecret : Option String) : Bool :=
  match scanSecret with
  | none => false
  | some t => t != "" && jsTrim t != ""

/-- The scan endpoint handler (`module.exports`, fail-closed variant):
405 on non-POST; 500 when the shared secret is unconfigured or blank;
401 on a bearer mismatch; 500 when the dispatch backend configuration is
incomplete; 400 when no product survives normalization; otherwise one
dispatch, answered 202 on success and 500 on dispatch failure. -/
def handler (env : ScanEnv) (host : Host) (o : Oracle) (req : ScanReq) :
    ScanResp × St :=
  let s0 : St := {}
  if req.method != "POST" then
    ({ status := 405, ok := false, error := some "Method not allowed" }, s0)
  else if ¬ scanSecretUsable env.scanSecret then
    ({ status := 500, ok := false,
       error := some "Missing env configuration: SCAN_SECRET" }, s0)
  else if req.authHeader.getD "" != "Bearer " ++ jsTrim (env.scanSecret.getD "") then
    ({ status := 401, ok := false, error := some "Unauthorized" }, s0)
  else if ¬ (strTruthy env.githubToken && strTruthy env.githubOwner
      && strTruthy env.githubRepo) then
    ({ status := 500, ok := false, error := some "Missing env configuration" }, s0)
  else
    let products := parseProducts host.toNumber (req.body.getD (.obj []))
    if products.isEmpty then
      ({ status := 400, ok := false, error := some "No valid products supplied" }, s0)
    else
      let (r, s1) := dispatchToGitHub o (env.githubToken.getD "")
        (env.githubOwner.getD "") (env.githubRepo.getD "")
        (envOrDefault env.eventTypeEnv "scan")
        { source := "vercel_scan_api", command := "scan", products := products } s0
      match r with
      | .ok _ =>
          ({ status := 202, ok := true, queued := true,
             product_count := some products.length }, s1)
      | .error e => ({ status := 500, ok := false, error := some e }, s1)

end ScanApi

/-! Concrete host environments and oracles, used to evaluate the
handlers on concrete inputs. -/

/-- A host whose `Number(...)` keeps numbers and maps everything else to
NaN (enough for the concrete payloads exercised below). -/
def sampleToNumber : Js → JsNum
  | .num q => q
  | _ => .nan

/-- A concrete single-product JSON object. -/
def sampleProductObj : Js :=
  .obj [("title", .str "iPhone 14"), ("price_eur", .num (.val 500)),
        ("category", .str "apple_phone")]

/-- A host whose JSON parser recognises one object literal and rejects
everything else. -/
def sampleHost : Host where
  jsonParse := fun s =>
    if s = "\x7b\"title\":\"iPhone 14\",\"price_eur\":500,\"category\":\"apple_phone\"\x7d"
    then .ok sampleProductObj else .error ()
  toNumber := sampleToNumber
  encodeURIComponent := fun s => s

/-- An oracle answering every outbound call with 200 OK. -/
def okOracle : Oracle := fun _ => { ok := true, status := 200, text := "" }

/-- An oracle answering every outbound call with 500. -/
def failOracle : Oracle := fun _ => { ok := false, status := 500, text := "boom" }

/-- An oracle whose first response is a 404 and whose later responses
are 201 Created. -/
def notFoundThenCreatedOracle : Oracle := fun n =>
  if n = 0 then { ok := false, status := 404, text := "nf" }
  else { ok := true, status := 201, text := "" }

/-- Every router dispatch event in a call list carries the invariant
payload fields: source "telegram", one of the three command names, the
chat id rendered as a string, and the sender id rendered with the
missing-sender fallback. -/
def goodDispatches (cid : Int) (uid : Option Int) (t : List Call) : Prop :=
  ∀ et p, Call.dispatch et p ∈ t →
    p.source = "telegram" ∧
    (p.command = "scan" ∨ p.command = "status" ∨ p.command = "last") ∧
    p.chat_id = toString cid ∧
    p.user_id = TelegramWebhook.idOrEmptyStr uid

/-- The number of dispatch events in a call list. -/
def countDispatch (t : List Call) : Nat :=
  (t.filter (fun c => match c with | Call.dispatch _ _ => true | _ => false)).length

open TelegramWebhook in
/-- C5: with a configured webhook secret and a mismatching (or absent)
secret header, a POST to the router is answered 401 and no outbound
call is made. -/
theorem router_secret_mismatch_401 (env : RouterEnv) (host : Host)
    (o : Oracle) (req : RouterReq)
    (hm : req.method = "POST")
    (hs : strTruthy env.webhookSecret = true)
    (hneq : req.secretHeader ≠ env.webhookSecret) :
    (handler env host o req).1.status = 401 ∧
      (handler env host o req).2.trace = [] := by
  unfold handler
  simp [hm, hs, hneq, St.trace]

/-- Witness for C5 at a concrete environment and request. -/
theorem router_secret_mismatch_401_witness :
    (TelegramWebhook.handler { webhookSecret := some "hunter2" } sampleHost
        okOracle { method := "POST", secretHeader := some "wrong" }).1.status = 401 ∧
      (TelegramWebhook.handler { webhookSecret := some "hunter2" } sampleHost
        okOracle { method := "POST", secretHeader := some "wrong" }).2.trace = [] :=
  router_secret_mismatch_401 _ _ _ _ rfl (by decide) (by decide)

open TelegramWebhook in
/-- C8: an authenticated POST whose Update lacks a chat identifier or
whose trimmed text does not start with "/" is acknowledged 200 with
`ignored: true` and provokes zero outbound calls. -/
theorem router_ignored_no_calls (env : RouterEnv) (host : Host)
    (o : Oracle) (req : RouterReq)
    (hm : req.method = "POST")
    (hsec : (strTruthy env.webhookSecret && req.secretHeader != env.webhookSecret) = false)
    (hbot : strTruthy env.botToken = true)
    (hig : routerChatId req = none ∨ jsStartsWith (routerText req) "/" = false) :
    (handler env host o req).1 =
        { status := 200, ok := true, ignored := true } ∧
      (handler env host o req).2.trace = [] := by
  unfold handler
  have hgate : (intOptTruthy (routerChatId req) && jsStartsWith (routerText req) "/") = false := by
    rcases hig with h | h
    · simp [h, intOptTruthy]
    · simp [h]
  simp [hm, hsec, hbot, hgate, St.trace]

/-- Witness for C8: a non-command text message. -/
theorem router_ignored_no_calls_witness :
    (TelegramWebhook.handler { botToken := some "token" } sampleHost okOracle
        { method := "POST",
          body := some { message := some { chatId := some 123, fromId := some 9,
                                           text := some "ciao" } } }).1 =
        { status := 200, ok := true, ignored := true } ∧
      (TelegramWebhook.handler { botToken := some "token" } sampleHost okOracle
        { method := "POST",
          body := some { message := some { chatId := some 123, fromId := some 9,
                                           text := some "ciao" } } }).2.trace = [] :=
  router_ignored_no_calls _ _ _ _ rfl (by decide) (by decide)
    (Or.inr (by decide))

/-! Helper lemmas about the effect combinators and the router branches. -/

theorem andThen_ok {α β : Type} {x : Except String α × St}
    {f : α → St → Except String β × St} {b : β} {s2 : St}
    (h : andThen x f = (.ok b, s2)) :
    ∃ a s1, x = (.ok a, s1) ∧ f a s1 = (.ok b, s2) := by
  obtain ⟨fst, snd⟩ := x
  cases fst with
  | ok a => exact ⟨a, snd, rfl, by simpa [andThen] using h⟩
  | error e => simp [andThen] at h

theorem andThen_ok_pair {α β : Type} (a : α) (s : St)
    (f : α → St → Except String β × St) :
    andThen (.ok a, s) f = f a s := rfl

theorem andThen_error_pair {α β : Type} (e : String) (s : St)
    (f : α → St → Except String β × St) :
    andThen (.error e, s) f = (.error e, s) := rfl

theorem andThen_error {α β : Type} {x : Except String α × St}
    {f : α → St → Except String β × St} {e : String} {s2 : St}
    (h : andThen x f = (.error e, s2)) :
    x = (.error e, s2) ∨ ∃ a s1, x = (.ok a, s1) ∧ f a s1 = (.error e, s2) := by
  obtain ⟨fst, snd⟩ := x
  cases fst with
  | ok a => exact Or.inr ⟨a, snd, rfl, by simpa [andThen] using h⟩
  | error e0 => left; simpa [andThen] using h

namespace TelegramWebhook

theorem sendTelegramMessage_eq (o : Oracle) (bt : String) (cid : Int)
    (txt : String) (s : St) :
    sendTelegramMessage o bt cid txt s =
      ((if (o s.n).ok then .ok ()
        else .error ("Telegram sendMessage failed: " ++ toString (o s.n).status
          ++ " " ++ (o s.n).text)),
       { n := s.n + 1, trace := s.trace ++ [.sendMessage cid txt] }) := by
  unfold sendTelegramMessage record
  by_cases h : (o s.n).ok <;> simp [h]

theorem dispatchToGitHub_eq (o : Oracle) (tok ow rp et : String)
    (payload : DispatchPayload) (s : St) :
    dispatchToGitHub o tok ow rp et payload s =
      ((if (o s.n).ok then .ok ()
        else .error ("GitHub dispatch failed: " ++ toString (o s.n).status
          ++ " " ++ (o s.n).text)),
       { n := s.n + 1, trace := s.trace ++ [.dispatch et payload] }) := by
  unfold dispatchToGitHub record
  by_cases h : (o s.n).ok <;> simp [h]

theorem replyOk {o : Oracle} {bt : String} {cid : Int} {txt : String}
    {s : St} {r : Resp} {s1 : St}
    (h : andThen (sendTelegramMessage o bt cid txt s)
      (fun _ s2 => (.ok ok200, s2)) = (.ok r, s1)) : r = ok200 := by
  obtain ⟨a, sm, _, hf⟩ := andThen_ok h
  simp only [Prod.mk.injEq, Except.ok.injEq] at hf
  exact hf.1.symm

end TelegramWebhook

namespace TelegramWebhook

theorem configMissingReply_ok {c : Ctx} {s : St} {r : Resp} {s1 : St}
    (h : configMissingReply c s = (.ok r, s1)) : r = ok200 := by
  unfold configMissingReply at h
  exact replyOk h

theorem startCmd_ok {c : Ctx} {s : St} {r : Resp} {s1 : St}
    (h : startCmd c s = (.ok r, s1)) : r = ok200 := by
  unfold startCmd at h
  exact replyOk h

theorem helpCmd_ok {c : Ctx} {s : St} {r : Resp} {s1 : St}
    (h : helpCmd c s = (.ok r, s1)) : r = ok200 := by
  unfold helpCmd at h
  exact replyOk h

theorem idCmd_ok {c : Ctx} {s : St} {r : Resp} {s1 : St}
    (h : idCmd c s = (.ok r, s1)) : r = ok200 := by
  unfold idCmd at h
  exact replyOk h

theorem rulesCmd_ok {c : Ctx} {s : St} {r : Resp} {s1 : St}
    (h : rulesCmd c s = (.ok r, s1)) : r = ok200 := by
  unfold rulesCmd at h
  exact replyOk h

theorem unknownCmd_ok {c : Ctx} {s : St} {r : Resp} {s1 : St}
    (h : unknownCmd c s = (.ok r, s1)) : r = ok200 := by
  unfold unknownCmd at h
  exact replyOk h

theorem scanDispatch_ok {c : Ctx} {ps : Option (List Js)} {s : St} {r : Resp}
    {s1 : St} (h : scanDispatch c ps s = (.ok r, s1)) : r = ok200 := by
  unfold scanDispatch at h
  obtain ⟨a, sm, hx, hf⟩ := andThen_ok h
  cases ps with
  | none => exact replyOk (by simpa using hf)
  | some l => exact replyOk (by simpa using hf)

theorem profileCmd_ok {c : Ctx} {s : St} {r : Resp} {s1 : St}
    (h : profileCmd c s = (.ok r, s1)) : r = ok200 := by
  unfold profileCmd at h
  split at h
  · exact configMissingReply_ok h
  · split at h
    · exact replyOk h
    · obtain ⟨varJs, sm, hx, hf⟩ := andThen_ok h
      dsimp only at hf
      split at hf
      · exact absurd hf (by simp)
      · exact replyOk hf
    · obtain ⟨a, sm, hx, hf⟩ := andThen_ok h
      exact replyOk hf

theorem scanCmd_ok {c : Ctx} {s : St} {r : Resp} {s1 : St}
    (h : scanCmd c s = (.ok r, s1)) : r = ok200 := by
  unfold scanCmd at h
  split at h
  · exact configMissingReply_ok h
  · split at h
    · exact replyOk h
    · split at h
      · exact replyOk h
      · exact scanDispatch_ok h
    · exact scanDispatch_ok h

end TelegramWebhook

namespace TelegramWebhook

theorem smokeCmd_ok {c : Ctx} {s : St} {r : Resp} {s1 : St}
    (h : smokeCmd c s = (.ok r, s1)) : r = ok200 := by
  unfold smokeCmd at h
  split at h
  · exact configMissingReply_ok h
  · obtain ⟨a, sm, hx, hf⟩ := andThen_ok h
    exact replyOk hf

theorem statusCmd_ok {c : Ctx} {s : St} {r : Resp} {s1 : St}
    (h : statusCmd c s = (.ok r, s1)) : r = ok200 := by
  unfold statusCmd at h
  split at h
  · exact configMissingReply_ok h
  · obtain ⟨a, sm, hx, hf⟩ := andThen_ok h
    exact replyOk hf

theorem lastCmd_ok {c : Ctx} {s : St} {r : Resp} {s1 : St}
    (h : lastCmd c s = (.ok r, s1)) : r = ok200 := by
  unfold lastCmd at h
  split at h
  · exact configMissingReply_ok h
  · obtain ⟨a, sm, hx, hf⟩ := andThen_ok h
    exact replyOk hf

theorem tryBody_ok {c : Ctx} {cmd : String} {s : St} {r : Resp} {s1 : St}
    (h : tryBody c cmd s = (.ok r, s1)) : r = ok200 := by
  unfold tryBody at h
  repeat' split at h
  · exact startCmd_ok h
  · exact helpCmd_ok h
  · exact idCmd_ok h
  · exact rulesCmd_ok h
  · exact profileCmd_ok h
  · exact scanCmd_ok h
  · exact smokeCmd_ok h
  · exact statusCmd_ok h
  · exact lastCmd_ok h
  · exact unknownCmd_ok h

end TelegramWebhook

open TelegramWebhook in
/-- C1: for every Update that passes the method, secret, credential,
structural, and allowlist gates, the router's response status is 200
whatever the command handler does; and whenever the selected handler
raises, the router catches it, attempts exactly one best-effort error
reply (recorded in the trace whether or not the oracle fails it), and
answers 200 with `ok: false` carrying the error message. -/
theorem router_catch_all_acks_200 (env : RouterEnv) (host : Host) (o : Oracle)
    (req : RouterReq)
    (hm : req.method = "POST")
    (hsec : (strTruthy env.webhookSecret && req.secretHeader != env.webhookSecret) = false)
    (hbot : strTruthy env.botToken = true)
    (hstruct : (intOptTruthy (routerChatId req) && jsStartsWith (routerText req) "/") = true)
    (hallow : (!(parseAllowedChatIds env.allowedChatIds).isEmpty &&
        !((parseAllowedChatIds env.allowedChatIds).contains
          (toString ((routerChatId req).getD 0)))) = false) :
    (handler env host o req).1.status = 200 ∧
      (∀ e s1, tryBody (routerCtx env host o req) (routerCommand req) {} = (.error e, s1) →
        handler env host o req =
          ({ status := 200, ok := false, error := some e },
           { n := s1.n + 1,
             trace := s1.trace ++
               [.sendMessage ((routerChatId req).getD 0) ("Errore comando: " ++ e)] })) := by
  unfold handler
  simp only [hm, hsec, hbot, hstruct, hallow, bne_self_eq_false, Bool.false_eq_true,
    if_false, Bool.not_true, ite_false, ite_true, not_true]
  rcases ht : tryBody (routerCtx env host o req) (routerCommand req) {} with ⟨res, st⟩
  cases res with
  | ok r =>
      have hr := tryBody_ok ht
      subst hr
      constructor
      · simp [ok200]
      · intro e s1 he
        exact absurd he (by simp)
  | error e0 =>
      constructor
      · simp
      · intro e1 s2 he
        simp only [Prod.mk.injEq, Except.error.injEq] at he
        obtain ⟨he1, he2⟩ := he
        subst he1; subst he2
        simp [sendTelegramMessage_eq]

/-- Witness for C1 at a concrete request (`/status` with a failing
dispatch backend and a failing reply channel). -/
theorem router_catch_all_acks_200_witness :
    (TelegramWebhook.handler
        { botToken := some "token", githubToken := some "ghp", githubOwner := some "owner",
          githubRepo := some "repo" } sampleHost failOracle
        { method := "POST",
          body := some { message := some { chatId := some 123, fromId := some 9,
                                           text := some "/status" } } }).1.status = 200 ∧
      (∀ e s1,
        TelegramWebhook.tryBody
            (TelegramWebhook.routerCtx
              { botToken := some "token", githubToken := some "ghp", githubOwner := some "owner",
                githubRepo := some "repo" } sampleHost failOracle
              { method := "POST",
                body := some { message := some { chatId := some 123, fromId := some 9,
                                                 text := some "/status" } } })
            (TelegramWebhook.routerCommand
              { method := "POST",
                body := some { message := some { chatId := some 123, fromId := some 9,
                                                 text := some "/status" } } }) {} =
          (.error e, s1) →
        TelegramWebhook.handler
            { botToken := some "token", githubToken := some "ghp", githubOwner := some "owner",
              githubRepo := some "repo" } sampleHost failOracle
            { method := "POST",
              body := some { message := some { chatId := some 123, fromId := some 9,
                                               text := some "/status" } } } =
          ({ status := 200, ok := false, error := some e },
           { n := s1.n + 1,
             trace := s1.trace ++
               [.sendMessage
                  ((TelegramWebhook.routerChatId
                    { method := "POST",
                      body := some { message := some { chatId := some 123, fromId := some 9,
                                                       text := some "/status" } } }).getD 0)
                  ("Errore comando: " ++ e)] })) :=
  router_catch_all_acks_200 _ _ _ _ rfl (by decide) (by decide) (by decide) (by decide)

open TelegramWebhook in
/-- C6: for an authenticated command Update, when the parsed allowlist
is non-empty and does not contain the chat id (as a string) the router
performs exactly one outbound call — the best-effort denial reply,
whatever the oracle answers to it — runs no command logic, and responds
200 with `ok: true, denied: true`; and an allowlist configuration that
parses to the empty set imposes no restriction (the response never
carries the denied flag), as both the unset and the empty configuration
string do. -/
theorem router_allowlist_denial (env : RouterEnv) (host : Host) (o : Oracle)
    (req : RouterReq) (cid : Int)
    (hm : req.method = "POST")
    (hsec : (strTruthy env.webhookSecret && req.secretHeader != env.webhookSecret) = false)
    (hbot : strTruthy env.botToken = true)
    (hcid : routerChatId req = some cid)
    (hcid0 : cid ≠ 0)
    (hslash : jsStartsWith (routerText req) "/" = true) :
    (parseAllowedChatIds env.allowedChatIds ≠ [] →
      toString cid ∉ parseAllowedChatIds env.allowedChatIds →
      handler env host o req =
        ({ status := 200, ok := true, denied := true },
         { n := 1, trace := [.sendMessage cid "Chat non autorizzata."] })) ∧
    (parseAllowedChatIds env.allowedChatIds = [] →
      (handler env host o req).1.denied = false) ∧
    parseAllowedChatIds none = [] ∧ parseAllowedChatIds (some "") = [] := by
  have hstruct : (intOptTruthy (routerChatId req) && jsStartsWith (routerText req) "/") = true := by
    simp [hcid, intOptTruthy, hcid0, hslash]
  refine ⟨?_, ?_, by decide, by decide⟩
  · intro hne hmem
    unfold handler
    have hco : (parseAllowedChatIds env.allowedChatIds).contains (toString cid) = false := by
      simpa using hmem
    rw [if_neg (by simp [hm]), if_neg (by simp [hsec]), if_neg (by simp [hbot]),
      if_neg (by simp [hstruct]),
      if_pos (by simp [List.isEmpty_iff, hne, hcid, hco, hmem]), hcid]
    simp [sendTelegramMessage_eq]
  · intro hempty
    unfold handler
    rw [if_neg (by simp [hm]), if_neg (by simp [hsec]), if_neg (by simp [hbot]),
      if_neg (by simp [hstruct]), if_neg (by simp [hempty])]
    rcases ht : tryBody (routerCtx env host o req) (routerCommand req) {} with ⟨res, st⟩
    cases res with
    | ok r =>
        have hr := tryBody_ok ht
        subst hr
        simp [ht, ok200]
    | error e0 => simp [ht]

/-- Witness for C6: allowlist `42`, chat id `123`. -/
theorem router_allowlist_denial_witness :
    ((TelegramWebhook.parseAllowedChatIds (some "42") ≠ [] →
      toString (123 : Int) ∉ TelegramWebhook.parseAllowedChatIds (some "42") →
      TelegramWebhook.handler
          { botToken := some "token", allowedChatIds := some "42" } sampleHost okOracle
          { method := "POST",
            body := some { message := some { chatId := some 123, fromId := some 9,
                                             text := some "/status" } } } =
        ({ status := 200, ok := true, denied := true },
         { n := 1, trace := [.sendMessage 123 "Chat non autorizzata."] })) ∧
    (TelegramWebhook.parseAllowedChatIds (some "42") = [] →
      (TelegramWebhook.handler
          { botToken := some "token", allowedChatIds := some "42" } sampleHost okOracle
          { method := "POST",
            body := some { message := some { chatId := some 123, fromId := some 9,
                                             text := some "/status" } } }).1.denied = false) ∧
    TelegramWebhook.parseAllowedChatIds none = [] ∧
    TelegramWebhook.parseAllowedChatIds (some "") = []) ∧
    TelegramWebhook.parseAllowedChatIds (some "42") ≠ [] ∧
    toString (123 : Int) ∉ TelegramWebhook.parseAllowedChatIds (some "42") :=
  ⟨router_allowlist_denial
      { botToken := some "token", allowedChatIds := some "42" } sampleHost okOracle
      { method := "POST",
        body := some { message := some { chatId := some 123, fromId := some 9,
                                         text := some "/status" } } }
      123 rfl (by decide) (by decide) (by decide) (by decide) (by decide),
    by decide, by decide⟩

namespace TelegramWebhook

theorem githubApiRequest_eq (host : Host) (o : Oracle) (m pth : String)
    (b : Option (String × String)) (s : St) :
    githubApiRequest host o m pth b s =
      ({ ok := (o s.n).ok, status := (o s.n).status, text := (o s.n).text,
         json := if (o s.n).text == "" then none
                 else (host.jsonParse (o s.n).text).toOption },
       { n := s.n + 1, trace := s.trace ++ [.api m pth b] }) := by
  unfold githubApiRequest record
  rfl

theorem replyStep_state (o : Oracle) (bt : String) (cid : Int) (txt : String)
    (s : St) :
    (andThen (sendTelegramMessage o bt cid txt s)
      (fun _ s2 => ((.ok ok200 : Except String Resp), s2))).2 =
      { n := s.n + 1, trace := s.trace ++ [.sendMessage cid txt] } := by
  rw [sendTelegramMessage_eq]
  by_cases h : (o s.n).ok <;> simp [h, andThen]

theorem getGitHubVariable_state (host : Host) (o : Oracle) (ow rp nm : String)
    (s : St) :
    (getGitHubVariable host o ow rp nm s).2 =
      { n := s.n + 1,
        trace := s.trace ++ [.api "GET"
          ("/repos/" ++ ow ++ "/" ++ rp ++ "/actions/variables/" ++
            host.encodeURIComponent nm) none] } := by
  unfold getGitHubVariable
  rw [githubApiRequest_eq]
  repeat' split
  all_goals simp_all

theorem upsertGitHubVariable_state (host : Host) (o : Oracle)
    (ow rp nm v : String) (s : St) :
    (upsertGitHubVariable host o ow rp nm v s).2.trace =
        s.trace ++ [.api "PATCH"
          ("/repos/" ++ ow ++ "/" ++ rp ++ "/actions/variables/" ++
            host.encodeURIComponent nm) (some (nm, v))] ∨
      (upsertGitHubVariable host o ow rp nm v s).2.trace =
        s.trace ++ [.api "PATCH"
          ("/repos/" ++ ow ++ "/" ++ rp ++ "/actions/variables/" ++
            host.encodeURIComponent nm) (some (nm, v)),
          .api "POST" ("/repos/" ++ ow ++ "/" ++ rp ++ "/actions/variables")
            (some (nm, v))] := by
  unfold upsertGitHubVariable
  rw [githubApiRequest_eq]
  split
  rename_i result s1 heq
  injection heq with h1 h2
  subst h2
  split
  · left; rfl
  · split
    · left; rfl
    · rw [githubApiRequest_eq]
      split
      rename_i result2 s2 heq2
      injection heq2 with g1 g2
      subst g2
      split <;> (right; simp)

end TelegramWebhook

theorem goodDispatches_append {cid : Int} {uid : Option Int} {a b : List Call}
    (ha : goodDispatches cid uid a) (hb : goodDispatches cid uid b) :
    goodDispatches cid uid (a ++ b) := by
  intro et p hm
  rcases List.mem_append.mp hm with h | h
  · exact ha et p h
  · exact hb et p h

theorem goodDispatches_sendMessage {cid : Int} {uid : Option Int} {i : Int}
    {t : String} : goodDispatches cid uid [.sendMessage i t] := by
  intro et p hm
  simp at hm

namespace TelegramWebhook

theorem replyStep_trace (o : Oracle) (bt : String) (cid0 : Int) (txt : String)
    (s : St) {cid : Int} {uid : Option Int} :
    ∃ k, (andThen (sendTelegramMessage o bt cid0 txt s)
        (fun _ s2 => ((.ok ok200 : Except String Resp), s2))).2.trace =
      s.trace ++ k ∧ goodDispatches cid uid k := by
  refine ⟨[.sendMessage cid0 txt], ?_, goodDispatches_sendMessage⟩
  rw [replyStep_state]

theorem configMissingReply_trace (c : Ctx) (s : St) :
    ∃ k, (configMissingReply c s).2.trace = s.trace ++ k ∧
      goodDispatches c.chatId c.userId k := by
  unfold configMissingReply
  exact replyStep_trace ..

theorem dispatchStep_trace {cid : Int} {uid : Option Int} (o : Oracle)
    (tok ow rp et : String) (pay : DispatchPayload) (s : St)
    (f : Unit → St → Except String Resp × St)
    (hf : ∀ s2, ∃ k, (f () s2).2.trace = s2.trace ++ k ∧ goodDispatches cid uid k)
    (hpay : pay.source = "telegram" ∧
      (pay.command = "scan" ∨ pay.command = "status" ∨ pay.command = "last") ∧
      pay.chat_id = toString cid ∧ pay.user_id = idOrEmptyStr uid) :
    ∃ k, (andThen (dispatchToGitHub o tok ow rp et pay s) f).2.trace =
      s.trace ++ k ∧ goodDispatches cid uid k := by
  have hone : goodDispatches cid uid [Call.dispatch et pay] := by
    intro et1 p1 hm
    simp only [List.mem_singleton, Call.dispatch.injEq] at hm
    obtain ⟨he, hp⟩ := hm
    subst hp
    exact hpay
  rw [dispatchToGitHub_eq]
  by_cases h : (o s.n).ok
  · simp only [h, if_true, andThen]
    obtain ⟨k, hk, hg⟩ := hf { n := s.n + 1, trace := s.trace ++ [.dispatch et pay] }
    exact ⟨[Call.dispatch et pay] ++ k, by simpa using hk,
      goodDispatches_append hone hg⟩
  · simp only [h, if_false, Bool.false_eq_true, andThen]
    exact ⟨[Call.dispatch et pay], rfl, hone⟩

end TelegramWebhook

namespace TelegramWebhook

theorem goodDispatches_api {cid : Int} {uid : Option Int} {m pth : String}
    {b : Option (String × String)} : goodDispatches cid uid [.api m pth b] := by
  intro et p hm
  simp at hm

theorem getVarStep_trace {cid : Int} {uid : Option Int} (host : Host)
    (o : Oracle) (ow rp nm : String) (s : St)
    (f : Js → St → Except String Resp × St)
    (hf : ∀ a s2, ∃ k, (f a s2).2.trace = s2.trace ++ k ∧ goodDispatches cid uid k) :
    ∃ k, (andThen (getGitHubVariable host o ow rp nm s) f).2.trace =
      s.trace ++ k ∧ goodDispatches cid uid k := by
  rcases hx : getGitHubVariable host o ow rp nm s with ⟨res, s1⟩
  have hs1 : s1 = { n := s.n + 1,
                    trace := s.trace ++ [.api "GET"
                      ("/repos/" ++ ow ++ "/" ++ rp ++ "/actions/variables/" ++
                        host.encodeURIComponent nm) none] } := by
    have := getGitHubVariable_state host o ow rp nm s
    rw [hx] at this
    exact this
  cases res with
  | error e =>
      refine ⟨[.api "GET" ("/repos/" ++ ow ++ "/" ++ rp ++ "/actions/variables/" ++
        host.encodeURIComponent nm) none], ?_, goodDispatches_api⟩
      simp [andThen, hs1]
  | ok a =>
      obtain ⟨k, hk, hg⟩ := hf a s1
      refine ⟨[.api "GET" ("/repos/" ++ ow ++ "/" ++ rp ++ "/actions/variables/" ++
        host.encodeURIComponent nm) none] ++ k, ?_,
        goodDispatches_append goodDispatches_api hg⟩
      simp only [andThen]
      rw [hk, hs1]
      simp

theorem upsertStep_trace {cid : Int} {uid : Option Int} (host : Host)
    (o : Oracle) (ow rp nm v : String) (s : St)
    (f : Unit → St → Except String Resp × St)
    (hf : ∀ s2, ∃ k, (f () s2).2.trace = s2.trace ++ k ∧ goodDispatches cid uid k) :
    ∃ k, (andThen (upsertGitHubVariable host o ow rp nm v s) f).2.trace =
      s.trace ++ k ∧ goodDispatches cid uid k := by
  rcases hx : upsertGitHubVariable host o ow rp nm v s with ⟨res, s1⟩
  have hs1 : s1.trace = s.trace ++ [.api "PATCH"
        ("/repos/" ++ ow ++ "/" ++ rp ++ "/actions/variables/" ++
          host.encodeURIComponent nm) (some (nm, v))] ∨
      s1.trace = s.trace ++ [.api "PATCH"
        ("/repos/" ++ ow ++ "/" ++ rp ++ "/actions/variables/" ++
          host.encodeURIComponent nm) (some (nm, v)),
        .api "POST" ("/repos/" ++ ow ++ "/" ++ rp ++ "/actions/variables")
          (some (nm, v))] := by
    have := upsertGitHubVariable_state host o ow rp nm v s
    rw [hx] at this
    exact this
  have hgood2 : ∀ t, s1.trace = s.trace ++ t →
      goodDispatches cid uid t → ∃ k, (andThen (res, s1) f).2.trace =
        s.trace ++ k ∧ goodDispatches cid uid k := by
    intro t ht hgt
    cases res with
    | error e => exact ⟨t, by simp [andThen, ht], hgt⟩
    | ok a =>
        obtain ⟨k, hk, hg⟩ := hf s1
        refine ⟨t ++ k, ?_, goodDispatches_append hgt hg⟩
        simp only [andThen]
        rw [hk, ht]
        simp
  rcases hs1 with h | h
  · exact hgood2 _ h goodDispatches_api
  · refine hgood2 _ h ?_
    intro et p hm
    simp at hm

end TelegramWebhook

namespace TelegramWebhook

theorem goodDispatches_nil {cid : Int} {uid : Option Int} :
    goodDispatches cid uid [] := by
  intro et p hm
  simp at hm

theorem startCmd_trace (c : Ctx) (s : St) :
    ∃ k, (startCmd c s).2.trace = s.trace ++ k ∧
      goodDispatches c.chatId c.userId k := by
  unfold startCmd
  exact replyStep_trace ..

theorem helpCmd_trace (c : Ctx) (s : St) :
    ∃ k, (helpCmd c s).2.trace = s.trace ++ k ∧
      goodDispatches c.chatId c.userId k := by
  unfold helpCmd
  exact replyStep_trace ..

theorem idCmd_trace (c : Ctx) (s : St) :
    ∃ k, (idCmd c s).2.trace = s.trace ++ k ∧
      goodDispatches c.chatId c.userId k := by
  unfold idCmd
  exact replyStep_trace ..

theorem rulesCmd_trace (c : Ctx) (s : St) :
    ∃ k, (rulesCmd c s).2.trace = s.trace ++ k ∧
      goodDispatches c.chatId c.userId k := by
  unfold rulesCmd
  exact replyStep_trace ..

theorem unknownCmd_trace (c : Ctx) (s : St) :
    ∃ k, (unknownCmd c s).2.trace = s.trace ++ k ∧
      goodDispatches c.chatId c.userId k := by
  unfold unknownCmd
  exact replyStep_trace ..

theorem statusCmd_trace (c : Ctx) (s : St) :
    ∃ k, (statusCmd c s).2.trace = s.trace ++ k ∧
      goodDispatches c.chatId c.userId k := by
  unfold statusCmd
  split
  · exact configMissingReply_trace ..
  · exact dispatchStep_trace _ _ _ _ _ _ _ _
      (fun s2 => replyStep_trace ..) ⟨rfl, Or.inr (Or.inl rfl), rfl, rfl⟩

theorem smokeCmd_trace (c : Ctx) (s : St) :
    ∃ k, (smokeCmd c s).2.trace = s.trace ++ k ∧
      goodDispatches c.chatId c.userId k := by
  unfold smokeCmd
  split
  · exact configMissingReply_trace ..
  · exact dispatchStep_trace _ _ _ _ _ _ _ _
      (fun s2 => replyStep_trace ..) ⟨rfl, Or.inl rfl, rfl, rfl⟩

theorem lastCmd_trace (c : Ctx) (s : St) :
    ∃ k, (lastCmd c s).2.trace = s.trace ++ k ∧
      goodDispatches c.chatId c.userId k := by
  unfold lastCmd
  split
  · exact configMissingReply_trace ..
  · exact dispatchStep_trace _ _ _ _ _ _ _ _
      (fun s2 => replyStep_trace ..) ⟨rfl, Or.inr (Or.inr rfl), rfl, rfl⟩

theorem scanDispatch_trace (c : Ctx) (ps : Option (List Js)) (s : St) :
    ∃ k, (scanDispatch c ps s).2.trace = s.trace ++ k ∧
      goodDispatches c.chatId c.userId k := by
  unfold scanDispatch
  refine dispatchStep_trace _ _ _ _ _ _ _ _ (fun s2 => ?_)
    ⟨rfl, Or.inl rfl, rfl, rfl⟩
  cases ps with
  | some l => exact replyStep_trace ..
  | none => exact replyStep_trace ..

theorem scanCmd_trace (c : Ctx) (s : St) :
    ∃ k, (scanCmd c s).2.trace = s.trace ++ k ∧
      goodDispatches c.chatId c.userId k := by
  unfold scanCmd
  split
  · exact configMissingReply_trace ..
  · split
    · exact replyStep_trace ..
    · split
      · exact replyStep_trace ..
      · exact scanDispatch_trace ..
    · exact scanDispatch_trace ..

theorem profileCmd_trace (c : Ctx) (s : St) :
    ∃ k, (profileCmd c s).2.trace = s.trace ++ k ∧
      goodDispatches c.chatId c.userId k := by
  unfold profileCmd
  split
  · exact configMissingReply_trace ..
  · split
    · exact replyStep_trace ..
    · refine getVarStep_trace _ _ _ _ _ _ _ (fun a s2 => ?_)
      dsimp only
      split
      · exact ⟨[], by simp, goodDispatches_nil⟩
      · exact replyStep_trace ..
    · exact upsertStep_trace _ _ _ _ _ _ _ _ (fun s2 => replyStep_trace ..)

theorem tryBody_trace (c : Ctx) (cmd : String) (s : St) :
    ∃ k, (tryBody c cmd s).2.trace = s.trace ++ k ∧
      goodDispatches c.chatId c.userId k := by
  unfold tryBody
  repeat' split
  · exact startCmd_trace ..
  · exact helpCmd_trace ..
  · exact idCmd_trace ..
  · exact rulesCmd_trace ..
  · exact profileCmd_trace ..
  · exact scanCmd_trace ..
  · exact smokeCmd_trace ..
  · exact statusCmd_trace ..
  · exact lastCmd_trace ..
  · exact unknownCmd_trace ..

end TelegramWebhook

open TelegramWebhook in
/-- C10: every dispatch event the router ever emits — on any request,
any environment, any oracle — carries `source = "telegram"`, one of the
command names "scan"/"status"/"last", the chat id rendered as a string,
and the sender id rendered as a string that is empty when the Update
carries no sender identifier. -/
theorem router_dispatch_payload_invariant (env : RouterEnv) (host : Host)
    (o : Oracle) (req : RouterReq) :
    ∀ et p, Call.dispatch et p ∈ (handler env host o req).2.trace →
      p.source = "telegram" ∧
      (p.command = "scan" ∨ p.command = "status" ∨ p.command = "last") ∧
      p.chat_id = toString ((routerChatId req).getD 0) ∧
      p.user_id = idOrEmptyStr (routerUserId req) ∧
      (routerUserId req = none → p.user_id = "") := by
  intro et p hm
  have main : p.source = "telegram" ∧
      (p.command = "scan" ∨ p.command = "status" ∨ p.command = "last") ∧
      p.chat_id = toString ((routerChatId req).getD 0) ∧
      p.user_id = idOrEmptyStr (routerUserId req) := by
    unfold handler at hm
    split at hm
    · simp at hm
    · split at hm
      · simp at hm
      · split at hm
        · simp at hm
        · (try dsimp only at hm)
          split at hm
          · simp at hm
          · split at hm
            · simp [sendTelegramMessage_eq] at hm
            · obtain ⟨k, hk, hg⟩ :=
                tryBody_trace (routerCtx env host o req) (routerCommand req) {}
              rcases ht : tryBody (routerCtx env host o req) (routerCommand req) {}
                with ⟨res, st⟩
              rw [ht] at hk
              rw [ht] at hm
              cases res with
              | ok r =>
                  simp only at hm
                  rw [hk] at hm
                  simpa using hg et p (by simpa using hm)
              | error e =>
                  simp only [sendTelegramMessage_eq] at hm
                  rw [hk] at hm
                  simp only [List.nil_append, List.mem_append] at hm
                  rcases hm with hm | hm
                  · simpa using hg et p hm
                  · simp at hm
  refine ⟨main.1, main.2.1, main.2.2.1, main.2.2.2, ?_⟩
  intro hnone
  rw [main.2.2.2, hnone]
  rfl

theorem countDispatch_append (a b : List Call) :
    countDispatch (a ++ b) = countDispatch a + countDispatch b := by
  unfold countDispatch
  rw [List.filter_append, List.length_append]

theorem not_mem_of_countDispatch_zero {t : List Call} {et : String}
    {p : DispatchPayload} (h : countDispatch t = 0) : Call.dispatch et p ∉ t := by
  intro hmem
  unfold countDispatch at h
  rw [List.length_eq_zero] at h
  have : Call.dispatch et p ∈ t.filter
      (fun c => match c with | Call.dispatch _ _ => true | _ => false) :=
    List.mem_filter.mpr ⟨hmem, rfl⟩
  rw [h] at this
  simp at this

namespace TelegramWebhook

theorem lastLimit_parse (a : String) :
    (∀ n0, parseIntTen a = .val n0 → lastLimit a = max 1 (min n0 10)) ∧
      ((a = "" ∨ parseIntTen a = .nan ∨ (∃ b, parseIntTen a = .inf b)) →
        lastLimit a = 5) := by
  constructor
  · intro n0 h
    by_cases ha : a = ""
    · subst ha
      rw [show parseIntTen "" = ParsedInt.nan from rfl] at h
      exact absurd h (by simp)
    · unfold lastLimit MAX_LAST_LIMIT
      rw [if_neg (by simpa using ha), h]
  · intro h
    by_cases ha : a = ""
    · subst ha
      decide
    · rcases h with h | h | ⟨b, h⟩
      · exact absurd h ha
      · unfold lastLimit
        rw [if_neg (by simpa using ha), h]
      · unfold lastLimit
        rw [if_neg (by simpa using ha), h]

theorem tryBody_last (c : Ctx) (s : St) : tryBody c "last" s = lastCmd c s := by
  rfl

theorem lastCmd_trace_shape (c : Ctx) (s : St) (hg : c.githubReady = true) :
    ∃ suffix, (lastCmd c s).2.trace = s.trace ++ Call.dispatch c.eventType
        { source := "telegram", command := "last", chat_id := toString c.chatId,
          user_id := idOrEmptyStr c.userId,
          limit := some (lastLimit c.args) } :: suffix ∧
      countDispatch suffix = 0 := by
  unfold lastCmd
  rw [if_neg (by simp [hg])]
  dsimp only
  rw [dispatchToGitHub_eq]
  by_cases hok : (c.o s.n).ok
  · refine ⟨[.sendMessage c.chatId ("Richiesta ultime opportunita (" ++
      toString (lastLimit c.args) ++ ") accodata su GitHub Actions.")], ?_, rfl⟩
    simp only [hok, if_true, andThen_ok_pair]
    rw [replyStep_state]
    simp
  · refine ⟨[], ?_, rfl⟩
    simp [hok, andThen_error_pair]

end TelegramWebhook

open TelegramWebhook in
/-- C9: for an authenticated, backend-ready `/last` Update, the router
emits exactly one dispatch, and the limit in its payload is the
argument parsed as a base-10 integer clamped to [1, 10], falling back
to 5 when the argument is absent or does not parse to a finite
integer. -/
theorem router_last_limit_clamped (env : RouterEnv) (host : Host) (o : Oracle)
    (req : RouterReq)
    (hm : req.method = "POST")
    (hsec : (strTruthy env.webhookSecret && req.secretHeader != env.webhookSecret) = false)
    (hbot : strTruthy env.botToken = true)
    (hstruct : (intOptTruthy (routerChatId req) && jsStartsWith (routerText req) "/") = true)
    (hallow : (!(parseAllowedChatIds env.allowedChatIds).isEmpty &&
        !((parseAllowedChatIds env.allowedChatIds).contains
          (toString ((routerChatId req).getD 0)))) = false)
    (hcmd : routerCommand req = "last")
    (hready : (strTruthy env.githubToken && strTruthy env.githubOwner
      && strTruthy env.githubRepo) = true) :
    countDispatch (handler env host o req).2.trace = 1 ∧
      ∀ et p, Call.dispatch et p ∈ (handler env host o req).2.trace →
        (∀ n0, parseIntTen (argsOf (routerText req)) = .val n0 →
          p.limit = some (max 1 (min n0 10))) ∧
        ((argsOf (routerText req) = "" ∨
            parseIntTen (argsOf (routerText req)) = .nan ∨
            (∃ b, parseIntTen (argsOf (routerText req)) = .inf b)) →
          p.limit = some 5) := by
  have hg : (routerCtx env host o req).githubReady = true := hready
  have key : ∀ (suf tr : List Call),
      tr = Call.dispatch (routerCtx env host o req).eventType
        { source := "telegram", command := "last",
          chat_id := toString (routerCtx env host o req).chatId,
          user_id := idOrEmptyStr (routerCtx env host o req).userId,
          limit := some (lastLimit (argsOf (routerText req))) } :: suf →
      countDispatch suf = 0 →
      countDispatch tr = 1 ∧
        ∀ et p, Call.dispatch et p ∈ tr →
          (∀ n0, parseIntTen (argsOf (routerText req)) = .val n0 →
            p.limit = some (max 1 (min n0 10))) ∧
          ((argsOf (routerText req) = "" ∨
              parseIntTen (argsOf (routerText req)) = .nan ∨
              (∃ b, parseIntTen (argsOf (routerText req)) = .inf b)) →
            p.limit = some 5) := by
    intro suf tr htr hsuf
    subst htr
    constructor
    · rw [show (Call.dispatch _ _ :: suf) =
        [Call.dispatch (routerCtx env host o req).eventType
          { source := "telegram", command := "last",
            chat_id := toString (routerCtx env host o req).chatId,
            user_id := idOrEmptyStr (routerCtx env host o req).userId,
            limit := some (lastLimit (argsOf (routerText req))) }] ++ suf from rfl,
        countDispatch_append, hsuf]
      rfl
    · intro et p hp
      rcases List.mem_cons.mp hp with hhd | htl
      · injection hhd with he1 he2
        subst he2
        constructor
        · intro n0 hn0
          simp [(lastLimit_parse (argsOf (routerText req))).1 n0 hn0]
        · intro habs
          simp [(lastLimit_parse (argsOf (routerText req))).2 habs]
      · exact absurd htl (not_mem_of_countDispatch_zero hsuf)
  unfold handler
  rw [if_neg (by simp [hm]), if_neg (by simp [hsec]), if_neg (by simp [hbot]),
    if_neg (by simp [hstruct]), if_neg (by simp only [hallow]; simp)]
  dsimp only
  rw [hcmd, tryBody_last]
  obtain ⟨suffix, hsh, hcd⟩ := lastCmd_trace_shape (routerCtx env host o req) {} hg
  rcases ht : lastCmd (routerCtx env host o req) {} with ⟨res, st⟩
  rw [ht] at hsh
  simp only [List.nil_append] at hsh
  cases res with
  | ok r =>
      exact key suffix st.trace (by simpa using hsh) hcd
  | error e =>
      refine key (suffix ++ [.sendMessage (routerCtx env host o req).chatId
        ("Errore comando: " ++ e)]) _ ?_ ?_
      · show (sendTelegramMessage o (env.botToken.getD "")
          ((routerChatId req).getD 0) ("Errore comando: " ++ e) st).2.trace = _
        rw [sendTelegramMessage_eq]
        simp only at hsh ⊢
        rw [hsh]
        simp
        exact ⟨rfl, rfl⟩
      · rw [countDispatch_append, hcd]
        rfl

/-- Witness for C9 at `/last 25` (clamped to 10) and at a 310-digit
argument (parseInt overflows to Infinity, so the limit defaults to 5). -/
theorem router_last_limit_clamped_witness :
    (countDispatch (TelegramWebhook.handler
        { botToken := some "token", githubToken := some "ghp",
          githubOwner := some "owner", githubRepo := some "repo" } sampleHost okOracle
        { method := "POST",
          body := some { message := some { chatId := some 123, fromId := some 9,
                                           text := some "/last 25" } } }).2.trace = 1 ∧
      ∀ et p, Call.dispatch et p ∈ (TelegramWebhook.handler
          { botToken := some "token", githubToken := some "ghp",
            githubOwner := some "owner", githubRepo := some "repo" } sampleHost okOracle
          { method := "POST",
            body := some { message := some { chatId := some 123, fromId := some 9,
                                             text := some "/last 25" } } }).2.trace →
        (∀ n0, parseIntTen (TelegramWebhook.argsOf (TelegramWebhook.routerText
            { method := "POST",
              body := some { message := some { chatId := some 123, fromId := some 9,
                                               text := some "/last 25" } } })) = .val n0 →
          p.limit = some (max 1 (min n0 10))) ∧
        ((TelegramWebhook.argsOf (TelegramWebhook.routerText
            { method := "POST",
              body := some { message := some { chatId := some 123, fromId := some 9,
                                               text := some "/last 25" } } }) = "" ∨
          parseIntTen (TelegramWebhook.argsOf (TelegramWebhook.routerText
            { method := "POST",
              body := some { message := some { chatId := some 123, fromId := some 9,
                                               text := some "/last 25" } } })) = .nan ∨
          (∃ b, parseIntTen (TelegramWebhook.argsOf (TelegramWebhook.routerText
            { method := "POST",
              body := some { message := some { chatId := some 123, fromId := some 9,
                                               text := some "/last 25" } } })) = .inf b)) →
          p.limit = some 5)) ∧
    (countDispatch (TelegramWebhook.handler
        { botToken := some "token", githubToken := some "ghp",
          githubOwner := some "owner", githubRepo := some "repo" } sampleHost okOracle
        { method := "POST",
          body := some { message := some { chatId := some 123, fromId := some 9,
                                           text := some "/last 1000000000000000000000000000000000000000000000000000000000000000000000000000000000000000000000000000000000000000000000000000000000000000000000000000000000000000000000000000000000000000000000000000000000000000000000000000000000000000000000000000000000000000000000000000000000000000000000000000000000000000000000" } } }).2.trace = 1 ∧
      ∀ et p, Call.dispatch et p ∈ (TelegramWebhook.handler
          { botToken := some "token", githubToken := some "ghp",
            githubOwner := some "owner", githubRepo := some "repo" } sampleHost okOracle
          { method := "POST",
            body := some { message := some { chatId := some 123, fromId := some 9,
                                             text := some "/last 1000000000000000000000000000000000000000000000000000000000000000000000000000000000000000000000000000000000000000000000000000000000000000000000000000000000000000000000000000000000000000000000000000000000000000000000000000000000000000000000000000000000000000000000000000000000000000000000000000000000000000000000" } } }).2.trace →
        (∀ n0, parseIntTen (TelegramWebhook.argsOf (TelegramWebhook.routerText
            { method := "POST",
              body := some { message := some { chatId := some 123, fromId := some 9,
                                               text := some "/last 1000000000000000000000000000000000000000000000000000000000000000000000000000000000000000000000000000000000000000000000000000000000000000000000000000000000000000000000000000000000000000000000000000000000000000000000000000000000000000000000000000000000000000000000000000000000000000000000000000000000000000000000" } } })) = .val n0 →
          p.limit = some (max 1 (min n0 10))) ∧
        ((TelegramWebhook.argsOf (TelegramWebhook.routerText
            { method := "POST",
              body := some { message := some { chatId := some 123, fromId := some 9,
                                               text := some "/last 1000000000000000000000000000000000000000000000000000000000000000000000000000000000000000000000000000000000000000000000000000000000000000000000000000000000000000000000000000000000000000000000000000000000000000000000000000000000000000000000000000000000000000000000000000000000000000000000000000000000000000000000" } } }) = "" ∨
          parseIntTen (TelegramWebhook.argsOf (TelegramWebhook.routerText
            { method := "POST",
              body := some { message := some { chatId := some 123, fromId := some 9,
                                               text := some "/last 1000000000000000000000000000000000000000000000000000000000000000000000000000000000000000000000000000000000000000000000000000000000000000000000000000000000000000000000000000000000000000000000000000000000000000000000000000000000000000000000000000000000000000000000000000000000000000000000000000000000000000000000" } } })) = .nan ∨
          (∃ b, parseIntTen (TelegramWebhook.argsOf (TelegramWebhook.routerText
            { method := "POST",
              body := some { message := some { chatId := some 123, fromId := some 9,
                                               text := some "/last 1000000000000000000000000000000000000000000000000000000000000000000000000000000000000000000000000000000000000000000000000000000000000000000000000000000000000000000000000000000000000000000000000000000000000000000000000000000000000000000000000000000000000000000000000000000000000000000000000000000000000000000000" } } })) = .inf b)) →
          p.limit = some 5)) :=
  ⟨router_last_limit_clamped
    { botToken := some "token", githubToken := some "ghp",
      githubOwner := some "owner", githubRepo := some "repo" } sampleHost okOracle
    { method := "POST",
      body := some { message := some { chatId := some 123, fromId := some 9,
                                       text := some "/last 25" } } }
    rfl (by decide) (by decide) (by decide) (by decide) (by decide) (by decide),
   router_last_limit_clamped
    { botToken := some "token", githubToken := some "ghp",
      githubOwner := some "owner", githubRepo := some "repo" } sampleHost okOracle
    { method := "POST",
      body := some { message := some { chatId := some 123, fromId := some 9,
                                       text := some "/last 1000000000000000000000000000000000000000000000000000000000000000000000000000000000000000000000000000000000000000000000000000000000000000000000000000000000000000000000000000000000000000000000000000000000000000000000000000000000000000000000000000000000000000000000000000000000000000000000000000000000000000000000" } } }
    rfl (by decide) (by decide) (by decide) (by decide) (by decide) (by decide)⟩

theorem dispatch_shape_conclusion {et0 : String} {pay : DispatchPayload}
    {suffix tr : List Call} (htr : tr = Call.dispatch et0 pay :: suffix)
    (hs : countDispatch suffix = 0) :
    countDispatch tr = 1 ∧ ∀ et p, Call.dispatch et p ∈ tr → p = pay := by
  subst htr
  constructor
  · rw [show Call.dispatch et0 pay :: suffix = [Call.dispatch et0 pay] ++ suffix
      from rfl, countDispatch_append, hs]
    rfl
  · intro et p hp
    rcases List.mem_cons.mp hp with hhd | htl
    · injection hhd with h1 h2
    · exact absurd htl (not_mem_of_countDispatch_zero hs)

namespace TelegramWebhook

theorem handler_trace_cases (env : RouterEnv) (host : Host) (o : Oracle)
    (req : RouterReq) (P : List Call → Prop)
    (hm : req.method = "POST")
    (hsec : (strTruthy env.webhookSecret && req.secretHeader != env.webhookSecret) = false)
    (hbot : strTruthy env.botToken = true)
    (hstruct : (intOptTruthy (routerChatId req) && jsStartsWith (routerText req) "/") = true)
    (hallow : (!(parseAllowedChatIds env.allowedChatIds).isEmpty &&
        !((parseAllowedChatIds env.allowedChatIds).contains
          (toString ((routerChatId req).getD 0)))) = false)
    (hok : ∀ r st, tryBody (routerCtx env host o req) (routerCommand req) {} =
      (.ok r, st) → P st.trace)
    (herr : ∀ e st, tryBody (routerCtx env host o req) (routerCommand req) {} =
      (.error e, st) →
      P (st.trace ++ [.sendMessage ((routerChatId req).getD 0)
        ("Errore comando: " ++ e)])) :
    P (handler env host o req).2.trace := by
  unfold handler
  rw [if_neg (by simp [hm]), if_neg (by simp [hsec]), if_neg (by simp [hbot]),
    if_neg (by simp [hstruct]), if_neg (by simp only [hallow]; simp)]
  dsimp only
  rcases ht : tryBody (routerCtx env host o req) (routerCommand req) {}
    with ⟨res, st⟩
  cases res with
  | ok r => exact hok r st ht
  | error e =>
      have := herr e st ht
      simpa [sendTelegramMessage_eq] using this

theorem scanDispatch_trace_shape (c : Ctx) (ps : Option (List Js)) (s : St) :
    ∃ suffix, (scanDispatch c ps s).2.trace = s.trace ++ Call.dispatch c.eventType
        { source := "telegram", command := "scan", chat_id := toString c.chatId,
          user_id := idOrEmptyStr c.userId, products := ps } :: suffix ∧
      countDispatch suffix = 0 := by
  unfold scanDispatch
  rw [dispatchToGitHub_eq]
  by_cases hok : (c.o s.n).ok
  · simp only [hok, if_true, andThen_ok_pair]
    cases ps with
    | some l =>
        refine ⟨[.sendMessage c.chatId ("Scan accodato su GitHub Actions (" ++
          toString l.length ++ " prodotti).")], ?_, rfl⟩
        rw [replyStep_state]
        simp
    | none =>
        refine ⟨[.sendMessage c.chatId
          "Scan accodato su GitHub Actions (modalita default: sorgenti prodotto configurate nel worker)."], ?_, rfl⟩
        rw [replyStep_state]
        simp
  · refine ⟨[], ?_, rfl⟩
    simp [hok, andThen_error_pair]

theorem tryBody_scan (c : Ctx) (s : St) : tryBody c "scan" s = scanCmd c s := by
  rfl

end TelegramWebhook

namespace TelegramWebhook

theorem scanCmd_eq_noargs (c : Ctx) (s : St) (hg : c.githubReady = true)
    (ha : c.args = "") : scanCmd c s = scanDispatch c none s := by
  unfold scanCmd
  rw [if_neg (by simp [hg]),
    show (if (c.args != "") = true
      then some (parseProductsArg c.host.jsonParse c.args) else none) = none
      from by simp [ha]]

theorem scanCmd_eq_products (c : Ctx) (s : St) (hg : c.githubReady = true)
    (ha : c.args ≠ "") {ps : List Js}
    (hp : parseProductsArg c.host.jsonParse c.args = .ok ps) (hne : ps ≠ []) :
    scanCmd c s = scanDispatch c (some ps) s := by
  unfold scanCmd
  rw [if_neg (by simp [hg]),
    show (if (c.args != "") = true
      then some (parseProductsArg c.host.jsonParse c.args) else none) =
      some (parseProductsArg c.host.jsonParse c.args) from by simp [ha],
    hp]
  show (if ps.isEmpty = true
    then andThen (sendTelegramMessage c.o c.botToken c.chatId
      "Payload vuoto: nessun prodotto valido." s) (fun _ s1 => (.ok ok200, s1))
    else scanDispatch c (some ps) s) = scanDispatch c (some ps) s
  rw [if_neg (by simp [hne])]

theorem scanCmd_eq_invalid (c : Ctx) (s : St) (hg : c.githubReady = true)
    (ha : c.args ≠ "") {e : Unit}
    (hp : parseProductsArg c.host.jsonParse c.args = .error e) :
    scanCmd c s = andThen (sendTelegramMessage c.o c.botToken c.chatId
      "JSON non valido. Invia un oggetto o array JSON." s)
      (fun _ s1 => (.ok ok200, s1)) := by
  unfold scanCmd
  rw [if_neg (by simp [hg]),
    show (if (c.args != "") = true
      then some (parseProductsArg c.host.jsonParse c.args) else none) =
      some (parseProductsArg c.host.jsonParse c.args) from by simp [ha],
    hp]

theorem scanCmd_eq_empty (c : Ctx) (s : St) (hg : c.githubReady = true)
    (ha : c.args ≠ "")
    (hp : parseProductsArg c.host.jsonParse c.args = .ok []) :
    scanCmd c s = andThen (sendTelegramMessage c.o c.botToken c.chatId
      "Payload vuoto: nessun prodotto valido." s)
      (fun _ s1 => (.ok ok200, s1)) := by
  unfold scanCmd
  rw [if_neg (by simp [hg]),
    show (if (c.args != "") = true
      then some (parseProductsArg c.host.jsonParse c.args) else none) =
      some (parseProductsArg c.host.jsonParse c.args) from by simp [ha],
    hp]
  show (if ([] : List Js).isEmpty = true
    then andThen (sendTelegramMessage c.o c.botToken c.chatId
      "Payload vuoto: nessun prodotto valido." s) (fun _ s1 => (.ok ok200, s1))
    else scanDispatch c (some []) s) = _
  rfl

end TelegramWebhook

namespace TelegramWebhook

theorem handler_scan_dispatch (env : RouterEnv) (host : Host) (o : Oracle)
    (req : RouterReq) (ps : Option (List Js))
    (hm : req.method = "POST")
    (hsec : (strTruthy env.webhookSecret && req.secretHeader != env.webhookSecret) = false)
    (hbot : strTruthy env.botToken = true)
    (hstruct : (intOptTruthy (routerChatId req) && jsStartsWith (routerText req) "/") = true)
    (hallow : (!(parseAllowedChatIds env.allowedChatIds).isEmpty &&
        !((parseAllowedChatIds env.allowedChatIds).contains
          (toString ((routerChatId req).getD 0)))) = false)
    (hcmd : routerCommand req = "scan")
    (heq : ∀ s, scanCmd (routerCtx env host o req) s =
      scanDispatch (routerCtx env host o req) ps s) :
    countDispatch (handler env host o req).2.trace = 1 ∧
      ∀ et p, Call.dispatch et p ∈ (handler env host o req).2.trace →
        p.products = ps := by
  refine handler_trace_cases env host o req
    (fun tr => countDispatch tr = 1 ∧
      ∀ et p, Call.dispatch et p ∈ tr → p.products = ps)
    hm hsec hbot hstruct hallow ?_ ?_
  · intro r st ht
    rw [hcmd, tryBody_scan, heq] at ht
    obtain ⟨suffix, hsh, hcd⟩ :=
      scanDispatch_trace_shape (routerCtx env host o req) ps {}
    rw [ht] at hsh
    simp only [List.nil_append] at hsh
    obtain ⟨h1, h2⟩ := dispatch_shape_conclusion hsh hcd
    exact ⟨h1, fun et p hp => by rw [h2 et p hp]⟩
  · intro e st ht
    rw [hcmd, tryBody_scan, heq] at ht
    obtain ⟨suffix, hsh, hcd⟩ :=
      scanDispatch_trace_shape (routerCtx env host o req) ps {}
    rw [ht] at hsh
    simp only [List.nil_append] at hsh
    have hsh2 : st.trace ++ [Call.sendMessage ((routerChatId req).getD 0)
        ("Errore comando: " ++ e)] =
        Call.dispatch (routerCtx env host o req).eventType
          { source := "telegram", command := "scan",
            chat_id := toString (routerCtx env host o req).chatId,
            user_id := idOrEmptyStr (routerCtx env host o req).userId,
            products := ps } ::
          (suffix ++ [Call.sendMessage ((routerChatId req).getD 0)
            ("Errore comando: " ++ e)]) := by
      rw [hsh]
      simp
    have hcd2 : countDispatch (suffix ++ [Call.sendMessage
        ((routerChatId req).getD 0) ("Errore comando: " ++ e)]) = 0 := by
      rw [countDispatch_append, hcd]
      rfl
    obtain ⟨h1, h2⟩ := dispatch_shape_conclusion hsh2 hcd2
    exact ⟨h1, fun et p hp => by rw [h2 et p hp]⟩

theorem handler_scan_reply (env : RouterEnv) (host : Host) (o : Oracle)
    (req : RouterReq) (txt : String)
    (hm : req.method = "POST")
    (hsec : (strTruthy env.webhookSecret && req.secretHeader != env.webhookSecret) = false)
    (hbot : strTruthy env.botToken = true)
    (hstruct : (intOptTruthy (routerChatId req) && jsStartsWith (routerText req) "/") = true)
    (hallow : (!(parseAllowedChatIds env.allowedChatIds).isEmpty &&
        !((parseAllowedChatIds env.allowedChatIds).contains
          (toString ((routerChatId req).getD 0)))) = false)
    (hcmd : routerCommand req = "scan")
    (heq : ∀ s, scanCmd (routerCtx env host o req) s =
      andThen (sendTelegramMessage (routerCtx env host o req).o
          (routerCtx env host o req).botToken
          (routerCtx env host o req).chatId txt s)
        (fun _ s1 => (.ok ok200, s1))) :
    countDispatch (handler env host o req).2.trace = 0 ∧
      ∃ t2, (handler env host o req).2.trace.head? =
        some (.sendMessage ((routerChatId req).getD 0) t2) := by
  refine handler_trace_cases env host o req
    (fun tr => countDispatch tr = 0 ∧
      ∃ t2, tr.head? = some (.sendMessage ((routerChatId req).getD 0) t2))
    hm hsec hbot hstruct hallow ?_ ?_
  · intro r st ht
    rw [hcmd, tryBody_scan, heq] at ht
    have hst : st = { n := 1, trace := [.sendMessage
        (routerCtx env host o req).chatId txt] } := by
      have := replyStep_state (routerCtx env host o req).o
        (routerCtx env host o req).botToken
        (routerCtx env host o req).chatId txt {}
      rw [ht] at this
      simpa using this
    subst hst
    exact ⟨rfl, txt, rfl⟩
  · intro e st ht
    rw [hcmd, tryBody_scan, heq] at ht
    have hst : st = { n := 1, trace := [.sendMessage
        (routerCtx env host o req).chatId txt] } := by
      have := replyStep_state (routerCtx env host o req).o
        (routerCtx env host o req).botToken
        (routerCtx env host o req).chatId txt {}
      rw [ht] at this
      simpa using this
    subst hst
    exact ⟨rfl, txt, rfl⟩

end TelegramWebhook

open TelegramWebhook in
/-- C7: for an authenticated, backend-ready `/scan` Update: a non-empty
argument whose de-fenced text JSON-parses to a single object yields
exactly one dispatch whose `client_payload.products` is that one-element
list; no argument yields exactly one dispatch with no products field;
and an argument that is invalid JSON, or that parses to zero product
objects, yields a reply as the first outbound call and no dispatch. -/
theorem router_scan_three_cases (env : RouterEnv) (host : Host) (o : Oracle)
    (req : RouterReq)
    (hm : req.method = "POST")
    (hsec : (strTruthy env.webhookSecret && req.secretHeader != env.webhookSecret) = false)
    (hbot : strTruthy env.botToken = true)
    (hstruct : (intOptTruthy (routerChatId req) && jsStartsWith (routerText req) "/") = true)
    (hallow : (!(parseAllowedChatIds env.allowedChatIds).isEmpty &&
        !((parseAllowedChatIds env.allowedChatIds).contains
          (toString ((routerChatId req).getD 0)))) = false)
    (hcmd : routerCommand req = "scan")
    (hready : (strTruthy env.githubToken && strTruthy env.githubOwner
      && strTruthy env.githubRepo) = true) :
    (∀ fs, argsOf (routerText req) ≠ "" →
      host.jsonParse (stripCodeFence (argsOf (routerText req))) = .ok (.obj fs) →
      countDispatch (handler env host o req).2.trace = 1 ∧
        ∀ et p, Call.dispatch et p ∈ (handler env host o req).2.trace →
          p.products = some [Js.obj fs]) ∧
    (argsOf (routerText req) = "" →
      countDispatch (handler env host o req).2.trace = 1 ∧
        ∀ et p, Call.dispatch et p ∈ (handler env host o req).2.trace →
          p.products = none) ∧
    (argsOf (routerText req) ≠ "" →
      ((∃ e, host.jsonParse (stripCodeFence (argsOf (routerText req))) = .error e) ∨
        parseProductsArg host.jsonParse (argsOf (routerText req)) = .ok []) →
      countDispatch (handler env host o req).2.trace = 0 ∧
        ∃ t2, (handler env host o req).2.trace.head? =
          some (.sendMessage ((routerChatId req).getD 0) t2)) := by
  have hg : (routerCtx env host o req).githubReady = true := hready
  refine ⟨?_, ?_, ?_⟩
  · intro fs ha hjson
    have hpp : parseProductsArg host.jsonParse (argsOf (routerText req)) =
        .ok [Js.obj fs] := by
      unfold parseProductsArg
      simp only [hjson]
      rfl
    exact handler_scan_dispatch env host o req (some [Js.obj fs])
      hm hsec hbot hstruct hallow hcmd
      (fun s => scanCmd_eq_products _ s hg ha hpp (by simp))
  · intro ha
    exact handler_scan_dispatch env host o req none
      hm hsec hbot hstruct hallow hcmd
      (fun s => scanCmd_eq_noargs _ s hg ha)
  · intro ha hbad
    rcases hbad with ⟨e, hjson⟩ | hempty
    · have hpp : parseProductsArg host.jsonParse (argsOf (routerText req)) =
          .error e := by
        unfold parseProductsArg
        simp only [hjson]
      exact handler_scan_reply env host o req
        "JSON non valido. Invia un oggetto o array JSON."
        hm hsec hbot hstruct hallow hcmd
        (fun s => scanCmd_eq_invalid _ s hg ha hpp)
    · exact handler_scan_reply env host o req
        "Payload vuoto: nessun prodotto valido."
        hm hsec hbot hstruct hallow hcmd
        (fun s => scanCmd_eq_empty _ s hg ha hempty)

/-- Witness for C7: a single-object JSON argument, no argument, and an
invalid argument, each at a concrete request. -/
theorem router_scan_three_cases_witness :
    (countDispatch (TelegramWebhook.handler
        { botToken := some "token", githubToken := some "ghp",
          githubOwner := some "owner", githubRepo := some "repo" }
        sampleHost okOracle
        { method := "POST",
          body := some { message := some { chatId := some 123, fromId := some 9,
                                           text := some ("/scan \x7b\"title\":\"iPhone 14\",\"price_eur\":500,\"category\":\"apple_phone\"\x7d") } } }).2.trace = 1 ∧
      ∀ et p, Call.dispatch et p ∈ (TelegramWebhook.handler
          { botToken := some "token", githubToken := some "ghp",
            githubOwner := some "owner", githubRepo := some "repo" }
          sampleHost okOracle
          { method := "POST",
            body := some { message := some { chatId := some 123, fromId := some 9,
                                             text := some ("/scan \x7b\"title\":\"iPhone 14\",\"price_eur\":500,\"category\":\"apple_phone\"\x7d") } } }).2.trace →
        p.products = some [Js.obj [("title", .str "iPhone 14"),
          ("price_eur", .num (.val 500)), ("category", .str "apple_phone")]]) ∧
    (countDispatch (TelegramWebhook.handler
        { botToken := some "token", githubToken := some "ghp",
          githubOwner := some "owner", githubRepo := some "repo" }
        sampleHost okOracle
        { method := "POST",
          body := some { message := some { chatId := some 123, fromId := some 9,
                                           text := some "/scan" } } }).2.trace = 1 ∧
      ∀ et p, Call.dispatch et p ∈ (TelegramWebhook.handler
          { botToken := some "token", githubToken := some "ghp",
            githubOwner := some "owner", githubRepo := some "repo" }
          sampleHost okOracle
          { method := "POST",
            body := some { message := some { chatId := some 123, fromId := some 9,
                                             text := some "/scan" } } }).2.trace → p.products = none) ∧
    (countDispatch (TelegramWebhook.handler
        { botToken := some "token", githubToken := some "ghp",
          githubOwner := some "owner", githubRepo := some "repo" }
        sampleHost okOracle
        { method := "POST",
          body := some { message := some { chatId := some 123, fromId := some 9,
                                           text := some "/scan xyz" } } }).2.trace = 0 ∧
      ∃ t2, (TelegramWebhook.handler
          { botToken := some "token", githubToken := some "ghp",
            githubOwner := some "owner", githubRepo := some "repo" }
          sampleHost okOracle
          { method := "POST",
            body := some { message := some { chatId := some 123, fromId := some 9,
                                             text := some "/scan xyz" } } }).2.trace.head? =
        some (.sendMessage ((TelegramWebhook.routerChatId
          { method := "POST",
            body := some { message := some { chatId := some 123, fromId := some 9,
                                             text := some "/scan xyz" } } }).getD 0) t2)) :=
  ⟨(router_scan_three_cases
      { botToken := some "token", githubToken := some "ghp",
        githubOwner := some "owner", githubRepo := some "repo" }
      sampleHost okOracle
      { method := "POST",
        body := some { message := some { chatId := some 123, fromId := some 9,
                                         text := some ("/scan \x7b\"title\":\"iPhone 14\",\"price_eur\":500,\"category\":\"apple_phone\"\x7d") } } }
      rfl (by decide) (by decide) (by decide) (by decide) (by decide)
      (by decide)).1
      [("title", .str "iPhone 14"), ("price_eur", .num (.val 500)),
        ("category", .str "apple_phone")]
      (by decide) (by rfl),
   (router_scan_three_cases
      { botToken := some "token", githubToken := some "ghp",
        githubOwner := some "owner", githubRepo := some "repo" }
      sampleHost okOracle
      { method := "POST",
        body := some { message := some { chatId := some 123, fromId := some 9,
                                         text := some "/scan" } } }
      rfl (by decide) (by decide) (by decide) (by decide) (by decide)
      (by decide)).2.1 (by decide),
   (router_scan_three_cases
      { botToken := some "token", githubToken := some "ghp",
        githubOwner := some "owner", githubRepo := some "repo" }
      sampleHost okOracle
      { method := "POST",
        body := some { message := some { chatId := some 123, fromId := some 9,
                                         text := some "/scan xyz" } } }
      rfl (by decide) (by decide) (by decide) (by decide) (by decide)
      (by decide)).2.2 (by decide) (Or.inl ⟨(), by rfl⟩)⟩

namespace TelegramWebhook

theorem upsertGitHubVariable_eq (host : Host) (o : Oracle)
    (ow rp nm v : String) (s : St) :
    upsertGitHubVariable host o ow rp nm v s =
      (if (o s.n).ok = true then
        ((.ok () : Except String Unit),
         { n := s.n + 1, trace := s.trace ++ [.api "PATCH"
            ("/repos/" ++ ow ++ "/" ++ rp ++ "/actions/variables/" ++
              host.encodeURIComponent nm) (some (nm, v))] })
      else if (o s.n).status ≠ 404 then
        (.error ("GitHub variable update failed: " ++ toString (o s.n).status
          ++ " " ++ (o s.n).text),
         { n := s.n + 1, trace := s.trace ++ [.api "PATCH"
            ("/repos/" ++ ow ++ "/" ++ rp ++ "/actions/variables/" ++
              host.encodeURIComponent nm) (some (nm, v))] })
      else if ¬ (o (s.n + 1)).ok = true then
        (.error ("GitHub variable create failed: " ++ toString (o (s.n + 1)).status
          ++ " " ++ (o (s.n + 1)).text),
         { n := s.n + 1 + 1, trace := (s.trace ++ [.api "PATCH"
            ("/repos/" ++ ow ++ "/" ++ rp ++ "/actions/variables/" ++
              host.encodeURIComponent nm) (some (nm, v))]) ++
            [.api "POST" ("/repos/" ++ ow ++ "/" ++ rp ++ "/actions/variables")
              (some (nm, v))] })
      else
        ((.ok () : Except String Unit),
         { n := s.n + 1 + 1, trace := (s.trace ++ [.api "PATCH"
            ("/repos/" ++ ow ++ "/" ++ rp ++ "/actions/variables/" ++
              host.encodeURIComponent nm) (some (nm, v))]) ++
            [.api "POST" ("/repos/" ++ ow ++ "/" ++ rp ++ "/actions/variables")
              (some (nm, v))] })) := by
  rfl

end TelegramWebhook

open TelegramWebhook in
/-- C4: the remote-variable upsert always issues the PATCH update
first; exactly when the PATCH responds 404 it issues a POST create with
the same `(name, value)` body; any other non-success response of either
step makes the call return an error, and a non-error return means the
write that was performed (PATCH in place, or POST create) succeeded. -/
theorem upsert_patch_then_create (host : Host) (o : Oracle)
    (ow rp nm v : String) (s : St) (hwf : ∀ n, HttpResp.wf (o n)) :
    ((o s.n).status = 404 →
      (upsertGitHubVariable host o ow rp nm v s).2.trace =
        s.trace ++ [.api "PATCH"
          ("/repos/" ++ ow ++ "/" ++ rp ++ "/actions/variables/" ++
            host.encodeURIComponent nm) (some (nm, v)),
          .api "POST" ("/repos/" ++ ow ++ "/" ++ rp ++ "/actions/variables")
            (some (nm, v))] ∧
      ((upsertGitHubVariable host o ow rp nm v s).1 = .ok () ↔
        (o (s.n + 1)).ok = true)) ∧
    ((o s.n).status ≠ 404 →
      (upsertGitHubVariable host o ow rp nm v s).2.trace =
        s.trace ++ [.api "PATCH"
          ("/repos/" ++ ow ++ "/" ++ rp ++ "/actions/variables/" ++
            host.encodeURIComponent nm) (some (nm, v))] ∧
      ((upsertGitHubVariable host o ow rp nm v s).1 = .ok () ↔
        (o s.n).ok = true)) := by
  rw [upsertGitHubVariable_eq]
  constructor
  · intro h404
    have hnok : (o s.n).ok = false := by
      have := hwf s.n
      unfold HttpResp.wf at this
      rw [h404] at this
      simpa using this
    rw [if_neg (by simp [hnok]), if_neg (by simp [h404])]
    by_cases hcr : (o (s.n + 1)).ok
    · rw [if_neg (by simp [hcr])]
      exact ⟨by simp, by simp [hcr]⟩
    · rw [if_pos (by simp [hcr])]
      exact ⟨by simp, by simp [hcr]⟩
  · intro h404
    by_cases hok : (o s.n).ok
    · rw [if_pos (by simp [hok])]
      exact ⟨rfl, by simp [hok]⟩
    · rw [if_neg (by simp [hok]), if_pos (by simp [h404])]
      exact ⟨rfl, by simp [hok]⟩

/-- Witness for C4: a PATCH answered 404 followed by a successful
create. -/
theorem upsert_patch_then_create_witness :
    (((notFoundThenCreatedOracle 0).status = 404 →
      (TelegramWebhook.upsertGitHubVariable sampleHost notFoundThenCreatedOracle
        "owner" "repo" "STRATEGY_PROFILE" "balanced" {}).2.trace =
        ([] : List Call) ++ [.api "PATCH"
          ("/repos/" ++ "owner" ++ "/" ++ "repo" ++ "/actions/variables/" ++
            sampleHost.encodeURIComponent "STRATEGY_PROFILE")
          (some ("STRATEGY_PROFILE", "balanced")),
          .api "POST" ("/repos/" ++ "owner" ++ "/" ++ "repo" ++ "/actions/variables")
            (some ("STRATEGY_PROFILE", "balanced"))] ∧
      ((TelegramWebhook.upsertGitHubVariable sampleHost notFoundThenCreatedOracle
        "owner" "repo" "STRATEGY_PROFILE" "balanced" {}).1 = .ok () ↔
        (notFoundThenCreatedOracle (0 + 1)).ok = true)) ∧
    ((notFoundThenCreatedOracle 0).status ≠ 404 →
      (TelegramWebhook.upsertGitHubVariable sampleHost notFoundThenCreatedOracle
        "owner" "repo" "STRATEGY_PROFILE" "balanced" {}).2.trace =
        ([] : List Call) ++ [.api "PATCH"
          ("/repos/" ++ "owner" ++ "/" ++ "repo" ++ "/actions/variables/" ++
            sampleHost.encodeURIComponent "STRATEGY_PROFILE")
          (some ("STRATEGY_PROFILE", "balanced"))] ∧
      ((TelegramWebhook.upsertGitHubVariable sampleHost notFoundThenCreatedOracle
        "owner" "repo" "STRATEGY_PROFILE" "balanced" {}).1 = .ok () ↔
        (notFoundThenCreatedOracle 0).ok = true))) ∧
    (∀ n, HttpResp.wf (notFoundThenCreatedOracle n)) :=
  ⟨upsert_patch_then_create sampleHost notFoundThenCreatedOracle
      "owner" "repo" "STRATEGY_PROFILE" "balanced" {}
      (fun n => by
        unfold HttpResp.wf notFoundThenCreatedOracle
        by_cases h : n = 0 <;> simp [h]),
   fun n => by
      unfold HttpResp.wf notFoundThenCreatedOracle
      by_cases h : n = 0 <;> simp [h]⟩

namespace ScanApi

theorem dispatchToGitHubScan_eq (o : Oracle) (tok ow rp et : String)
    (payload : ScanPayload) (s : St) :
    dispatchToGitHub o tok ow rp et payload s =
      ((if (o s.n).ok then .ok ()
        else .error ("GitHub dispatch failed: " ++ toString (o s.n).status
          ++ " " ++ (o s.n).text)),
       { n := s.n + 1, trace := s.trace ++ [.dispatchScan et payload] }) := by
  unfold dispatchToGitHub record
  by_cases h : (o s.n).ok <;> simp [h]

end ScanApi

open ScanApi in
/-- C2: the direct trigger endpoint's status mapping on POSTs — 500
whenever the shared secret is unconfigured or blank, regardless of the
Authorization header; 401 on a missing or mismatching bearer header
when a secret is configured; 400 when the header is correct, the
backend configured, but no product survives the parse; 202 with
`product_count` equal to the number of accepted products when at least
one product is accepted and the dispatch succeeds. -/
theorem scan_endpoint_status_mapping (env : ScanEnv) (host : Host)
    (o : Oracle) (req : ScanReq) (hm : req.method = "POST") :
    (scanSecretUsable env.scanSecret = false →
      (ScanApi.handler env host o req).1.status = 500) ∧
    (scanSecretUsable env.scanSecret = true →
      req.authHeader.getD "" ≠ "Bearer " ++ jsTrim (env.scanSecret.getD "") →
      (ScanApi.handler env host o req).1.status = 401) ∧
    (scanSecretUsable env.scanSecret = true →
      req.authHeader.getD "" = "Bearer " ++ jsTrim (env.scanSecret.getD "") →
      (strTruthy env.githubToken && strTruthy env.githubOwner
        && strTruthy env.githubRepo) = true →
      parseProducts host.toNumber (req.body.getD (.obj [])) = [] →
      (ScanApi.handler env host o req).1.status = 400) ∧
    (∀ ps, scanSecretUsable env.scanSecret = true →
      req.authHeader.getD "" = "Bearer " ++ jsTrim (env.scanSecret.getD "") →
      (strTruthy env.githubToken && strTruthy env.githubOwner
        && strTruthy env.githubRepo) = true →
      parseProducts host.toNumber (req.body.getD (.obj [])) = ps →
      ps ≠ [] → (o 0).ok = true →
      (ScanApi.handler env host o req).1 =
        { status := 202, ok := true, queued := true,
          product_count := some ps.length }) := by
  refine ⟨?_, ?_, ?_, ?_⟩
  · intro hsecret
    unfold ScanApi.handler
    rw [if_neg (by simp [hm]), if_pos (by simp [hsecret])]
  · intro hsecret hauth
    unfold ScanApi.handler
    rw [if_neg (by simp [hm]), if_neg (by simp [hsecret]),
      if_pos (by simpa using hauth)]
  · intro hsecret hauth hready hps
    unfold ScanApi.handler
    rw [if_neg (by simp [hm]), if_neg (by simp [hsecret]),
      if_neg (by simpa using hauth), if_neg (by simp [hready])]
    dsimp only
    rw [if_pos (by simp [hps])]
  · intro ps hsecret hauth hready hps hne hdisp
    unfold ScanApi.handler
    rw [if_neg (by simp [hm]), if_neg (by simp [hsecret]),
      if_neg (by simpa using hauth), if_neg (by simp [hready])]
    dsimp only
    rw [if_neg (by simp [hps, hne]), dispatchToGitHubScan_eq]
    simp only [show (({} : St)).n = 0 from rfl, hdisp, if_true, hps]

/-- Witness for C2 at concrete requests for each of the four statuses. -/
theorem scan_endpoint_status_mapping_witness :
    ((ScanApi.handler
        { githubToken := some "ghp", githubOwner := some "owner", githubRepo := some "repo" }
        sampleHost okOracle
        { method := "POST", authHeader := some "Bearer s" }).1.status = 500) ∧
    ((ScanApi.handler
        { scanSecret := some "s", githubToken := some "ghp", githubOwner := some "owner",
          githubRepo := some "repo" }
        sampleHost okOracle
        { method := "POST" }).1.status = 401) ∧
    ((ScanApi.handler
        { scanSecret := some "s", githubToken := some "ghp", githubOwner := some "owner",
          githubRepo := some "repo" }
        sampleHost okOracle
        { method := "POST", authHeader := some "Bearer s",
          body := some (.obj []) }).1.status = 400) ∧
    ((ScanApi.handler
        { scanSecret := some "s", githubToken := some "ghp", githubOwner := some "owner",
          githubRepo := some "repo" }
        sampleHost okOracle
        { method := "POST", authHeader := some "Bearer s",
          body := some (.obj [("products",
            .arr [.obj [("title", .str "iPhone 14"), ("price_eur", .num (.val 500))]])]) }).1 =
      { status := 202, ok := true, queued := true, product_count := some 1 }) :=
  ⟨(scan_endpoint_status_mapping
      { githubToken := some "ghp", githubOwner := some "owner", githubRepo := some "repo" }
      sampleHost okOracle
      { method := "POST", authHeader := some "Bearer s" } rfl).1 (by decide),
   (scan_endpoint_status_mapping
      { scanSecret := some "s", githubToken := some "ghp", githubOwner := some "owner",
        githubRepo := some "repo" }
      sampleHost okOracle
      { method := "POST" } rfl).2.1 (by decide) (by decide),
   (scan_endpoint_status_mapping
      { scanSecret := some "s", githubToken := some "ghp", githubOwner := some "owner",
        githubRepo := some "repo" }
      sampleHost okOracle
      { method := "POST", authHeader := some "Bearer s",
        body := some (.obj []) } rfl).2.2.1 (by decide) (by decide) (by decide)
      (by rfl),
   (scan_endpoint_status_mapping
      { scanSecret := some "s", githubToken := some "ghp", githubOwner := some "owner",
        githubRepo := some "repo" }
      sampleHost okOracle
      { method := "POST", authHeader := some "Bearer s",
        body := some (.obj [("products",
          .arr [.obj [("title", .str "iPhone 14"), ("price_eur", .num (.val 500))]])]) }
      rfl).2.2.2
      [Js.obj [("title", .str "iPhone 14"), ("price_eur", .num (.val 500))]]
      (by decide) (by decide) (by decide) (by rfl) (by simp) (by decide)⟩

theorem jsGet_obj (l : List (String × Js)) (k : String) :
    jsGet (.obj l) k =
      (match l.find? (fun p => p.1 == k) with
       | some p => p.2
       | none => .undefined) := rfl

theorem find_map_override (k : String) (v : Js) (k2 : String) (h : k2 ≠ k) :
    ∀ fields : List (String × Js),
      (fields.map (fun p => if p.1 == k then (k, v) else p)).find?
        (fun p => p.1 == k2) = fields.find? (fun p => p.1 == k2) := by
  intro fields
  induction fields with
  | nil => rfl
  | cons p ps ih =>
      simp only [List.map_cons, List.find?]
      by_cases hpk : p.1 = k
      · rw [if_pos (by simpa using hpk)]
        rw [show (k == k2) = false from by simp [Ne.symm h]]
        rw [show (p.1 == k2) = false from by simp [hpk, Ne.symm h]]
        exact ih
      · rw [if_neg (by simpa using hpk)]
        cases hq : (p.1 == k2)
        · exact ih
        · rfl

theorem find_map_override_hit (k : String) (v : Js) :
    ∀ fields : List (String × Js), fields.any (fun p => p.1 == k) = true →
      (fields.map (fun p => if p.1 == k then (k, v) else p)).find?
        (fun p => p.1 == k) = some (k, v) := by
  intro fields
  induction fields with
  | nil => intro hany; simp at hany
  | cons p ps ih =>
      intro hany
      simp only [List.map_cons, List.find?]
      by_cases hpk : p.1 = k
      · rw [if_pos (by simpa using hpk)]
        simp
      · rw [if_neg (by simpa using hpk)]
        rw [show (p.1 == k) = false from by simpa using hpk]
        simp only [List.any_cons, Bool.or_eq_true] at hany
        rcases hany with hh | ht
        · exact absurd (by simpa using hh) hpk
        · exact ih ht

theorem find_none_of_any_false (k : String) :
    ∀ fields : List (String × Js), fields.any (fun p => p.1 == k) = false →
      fields.find? (fun p => p.1 == k) = none := by
  intro fields
  induction fields with
  | nil => intro _; rfl
  | cons p ps ih =>
      intro hany
      simp only [List.any_cons, Bool.or_eq_false_iff] at hany
      simp [List.find?, hany.1, ih hany.2]

theorem jsGet_setField_ne (fields : List (String × Js)) (k : String) (v : Js)
    (k2 : String) (h : k2 ≠ k) :
    jsGet (.obj (jsSetField fields k v)) k2 = jsGet (.obj fields) k2 := by
  by_cases hany : fields.any (fun p => p.1 == k) = true
  · have hset : jsSetField fields k v =
        fields.map (fun p => if p.1 == k then (k, v) else p) := by
      unfold jsSetField
      rw [if_pos hany]
    rw [jsGet_obj, jsGet_obj, hset, find_map_override k v k2 h]
  · have hset : jsSetField fields k v = fields ++ [(k, v)] := by
      unfold jsSetField
      rw [if_neg hany]
    rw [jsGet_obj, jsGet_obj, hset, List.find?_append]
    have hx : ([(k, v)].find? (fun p => p.1 == k2)) = none := by
      simp [List.find?, show (k == k2) = false from by simp [Ne.symm h]]
    rw [hx]
    cases hf : fields.find? (fun p => p.1 == k2) <;> simp [hf]

theorem jsGet_setField_eq (fields : List (String × Js)) (k : String) (v : Js) :
    jsGet (.obj (jsSetField fields k v)) k = v := by
  by_cases hany : fields.any (fun p => p.1 == k) = true
  · have hset : jsSetField fields k v =
        fields.map (fun p => if p.1 == k then (k, v) else p) := by
      unfold jsSetField
      rw [if_pos hany]
    rw [jsGet_obj, hset, find_map_override_hit k v fields hany]
  · have hset : jsSetField fields k v = fields ++ [(k, v)] := by
      unfold jsSetField
      rw [if_neg hany]
    have hanyf : fields.any (fun p => p.1 == k) = false := by
      cases hb : fields.any (fun p => p.1 == k)
      · rfl
      · exact absurd hb hany
    rw [jsGet_obj, hset, List.find?_append,
      find_none_of_any_false k fields hanyf]
    simp [List.find?]

open ScanApi in
/-- C3 counterexample: the product `\x7b title: " x ", price_eur: 5 \x7d` is
accepted by the trigger endpoint's normalizer, but its original `title`
field is NOT preserved in the output (it is overwritten by its trimmed
form), refuting "all of its original fields preserved" as stated. -/
theorem scan_normalizer_title_not_preserved :
    ScanApi.parseProducts sampleToNumber
        (Js.obj [("products", Js.arr [Js.obj [("title", Js.str " x "),
          ("price_eur", Js.num (.val 5))]])]) =
      [Js.obj [("title", Js.str "x"), ("price_eur", Js.num (.val 5))]] ∧
    jsGet (Js.obj [("title", Js.str "x"), ("price_eur", Js.num (.val 5))]) "title" ≠
      jsGet (Js.obj [("title", Js.str " x "), ("price_eur", Js.num (.val 5))]) "title" := by
  constructor
  · rfl
  · intro hcontr
    rw [show jsGet (Js.obj [("title", Js.str "x"),
          ("price_eur", Js.num (.val 5))]) "title" = Js.str "x" from rfl,
        show jsGet (Js.obj [("title", Js.str " x "),
          ("price_eur", Js.num (.val 5))]) "title" = Js.str " x " from rfl]
      at hcontr
    injection hcontr with hs
    exact absurd hs (by decide)

open ScanApi in
/-- C3 (amended): every product the trigger endpoint's normalizer
accepts is an object; in the dispatch payload it appears with every
field other than `title` and `price_eur` preserved, with `price_eur`
overwritten by the numeric coercion of the original `price_eur` (or
`price`) — a finite number strictly greater than 0 — and with `title`
overwritten by the trimmed original title, a non-empty string; and the
endpoint's dispatch payload carries exactly the normalizer's output. -/
theorem scan_normalizer_roundtrip_amended :
    (∀ tn c out, ScanApi.normalize tn c = some out →
      ∃ fields q, c = Js.obj fields ∧
        ScanApi.titleOf c ≠ "" ∧
        (∃ traw, jsGet c "title" = Js.str traw ∧
          ScanApi.titleOf c = jsTrim traw) ∧
        tn (ScanApi.priceRawOf c) = JsNum.val q ∧ 0 < q ∧
        out = Js.obj (jsSetField
          (jsSetField fields "title" (Js.str (ScanApi.titleOf c)))
          "price_eur" (Js.num (.val q))) ∧
        jsGet out "title" = Js.str (ScanApi.titleOf c) ∧
        jsGet out "price_eur" = Js.num (.val q) ∧
        (∀ k, k ≠ "title" → k ≠ "price_eur" → jsGet out k = jsGet c k)) ∧
    (∀ tn payload out, out ∈ ScanApi.parseProducts tn payload →
      ∃ c, ScanApi.normalize tn c = some out) ∧
    (∀ env host o req et p,
      Call.dispatchScan et p ∈ (ScanApi.handler env host o req).2.trace →
      p.products = ScanApi.parseProducts host.toNumber
        (req.body.getD (.obj []))) := by
  refine ⟨?_, ?_, ?_⟩
  · intro tn c out h
    unfold ScanApi.normalize at h
    split at h
    · simp at h
    · rename_i hobj
      split at h
      · rename_i q hq
        split at h
        · simp at h
        · rename_i hguard
          push_neg at hguard
          obtain ⟨htitle, hqpos⟩ := hguard
          split at h
          · rename_i fields
            refine ⟨fields, q, rfl, by simpa using htitle, ?_, hq, hqpos, ?_, ?_, ?_, ?_⟩
            · have hne : ScanApi.titleOf (Js.obj fields) ≠ "" := by
                simpa using htitle
              rcases hjt : jsGet (Js.obj fields) "title" with _ | _ | b | n | s | xs | fs
              case str =>
                exact ⟨s, rfl, by unfold ScanApi.titleOf; rw [hjt]⟩
              all_goals exact absurd (show ScanApi.titleOf (Js.obj fields) = ""
                from by unfold ScanApi.titleOf; rw [hjt]) hne
            · injection h with h2
              exact h2.symm
            · rw [show out = Js.obj (jsSetField
                (jsSetField fields "title" (Js.str (ScanApi.titleOf (Js.obj fields))))
                "price_eur" (Js.num (.val q))) from by
                  injection h with h2
                  exact h2.symm]
              rw [jsGet_setField_ne _ _ _ _ (by decide), jsGet_setField_eq]
            · rw [show out = Js.obj (jsSetField
                (jsSetField fields "title" (Js.str (ScanApi.titleOf (Js.obj fields))))
                "price_eur" (Js.num (.val q))) from by
                  injection h with h2
                  exact h2.symm]
              rw [jsGet_setField_eq]
            · intro k hk1 hk2
              rw [show out = Js.obj (jsSetField
                (jsSetField fields "title" (Js.str (ScanApi.titleOf (Js.obj fields))))
                "price_eur" (Js.num (.val q))) from by
                  injection h with h2
                  exact h2.symm]
              rw [jsGet_setField_ne _ _ _ _ hk2, jsGet_setField_ne _ _ _ _ hk1]
          · simp at h
      · simp at h
  · intro tn payload out h
    unfold ScanApi.parseProducts at h
    split at h
    · obtain ⟨a, _, ha⟩ := List.mem_filterMap.mp h
      exact ⟨a, ha⟩
    · split at h
      · split at h
        · rename_i n heq
          simp only [List.mem_singleton] at h
          subst h
          exact ⟨_, heq⟩
        · simp at h
      · split at h
        · split at h
          · rename_i n heq
            simp only [List.mem_singleton] at h
            subst h
            exact ⟨_, heq⟩
          · simp at h
        · simp at h
  · intro env host o req et p hm
    unfold ScanApi.handler at hm
    split at hm
    · simp at hm
    · split at hm
      · simp at hm
      · split at hm
        · simp at hm
        · split at hm
          · simp at hm
          · (try dsimp only at hm)
            split at hm
            · simp at hm
            · split at hm
              all_goals
                rw [ScanApi.dispatchToGitHubScan_eq] at hm
                simp at hm
                rw [hm.2]

/-- Witness for the amended C3 at a concrete accepted product. -/
theorem scan_normalizer_roundtrip_amended_witness :
    (∃ fields q,
      Js.obj [("title", Js.str "iPhone 14"), ("price_eur", Js.num (.val 500))] =
        Js.obj fields ∧
      ScanApi.titleOf (Js.obj [("title", Js.str "iPhone 14"),
        ("price_eur", Js.num (.val 500))]) ≠ "" ∧
      (∃ traw, jsGet (Js.obj [("title", Js.str "iPhone 14"),
          ("price_eur", Js.num (.val 500))]) "title" = Js.str traw ∧
        ScanApi.titleOf (Js.obj [("title", Js.str "iPhone 14"),
          ("price_eur", Js.num (.val 500))]) = jsTrim traw) ∧
      sampleToNumber (ScanApi.priceRawOf (Js.obj [("title", Js.str "iPhone 14"),
        ("price_eur", Js.num (.val 500))])) = JsNum.val q ∧ 0 < q ∧
      Js.obj [("title", Js.str "iPhone 14"), ("price_eur", Js.num (.val 500))] =
        Js.obj (jsSetField (jsSetField fields "title"
          (Js.str (ScanApi.titleOf (Js.obj [("title", Js.str "iPhone 14"),
            ("price_eur", Js.num (.val 500))]))))
          "price_eur" (Js.num (.val q))) ∧
      jsGet (Js.obj [("title", Js.str "iPhone 14"),
          ("price_eur", Js.num (.val 500))]) "title" =
        Js.str (ScanApi.titleOf (Js.obj [("title", Js.str "iPhone 14"),
          ("price_eur", Js.num (.val 500))])) ∧
      jsGet (Js.obj [("title", Js.str "iPhone 14"),
          ("price_eur", Js.num (.val 500))]) "price_eur" = Js.num (.val q) ∧
      (∀ k, k ≠ "title" → k ≠ "price_eur" →
        jsGet (Js.obj [("title", Js.str "iPhone 14"),
            ("price_eur", Js.num (.val 500))]) k =
          jsGet (Js.obj [("title", Js.str "iPhone 14"),
            ("price_eur", Js.num (.val 500))]) k)) ∧
    (∃ c, ScanApi.normalize sampleToNumber c =
      some (Js.obj [("title", Js.str "iPhone 14"),
        ("price_eur", Js.num (.val 500))])) ∧
    (ScanPayload.products
        { source := "vercel_scan_api", command := "scan",
          products := [Js.obj [("title", Js.str "iPhone 14"),
            ("price_eur", Js.num (.val 500))]] } =
      ScanApi.parseProducts sampleHost.toNumber
        ((some (Js.obj [("products", Js.arr [Js.obj [("title", Js.str "iPhone 14"),
          ("price_eur", Js.num (.val 500))]])]) : Option Js).getD (.obj []))) :=
  ⟨scan_normalizer_roundtrip_amended.1 sampleToNumber
      (Js.obj [("title", Js.str "iPhone 14"), ("price_eur", Js.num (.val 500))])
      (Js.obj [("title", Js.str "iPhone 14"), ("price_eur", Js.num (.val 500))])
      rfl,
   scan_normalizer_roundtrip_amended.2.1 sampleToNumber
      (Js.obj [("products", Js.arr [Js.obj [("title", Js.str "iPhone 14"),
        ("price_eur", Js.num (.val 500))]])])
      (Js.obj [("title", Js.str "iPhone 14"), ("price_eur", Js.num (.val 500))])
      (by exact List.mem_singleton.mpr rfl),
   scan_normalizer_roundtrip_amended.2.2
      { scanSecret := some "s", githubToken := some "ghp",
        githubOwner := some "owner", githubRepo := some "repo" }
      sampleHost okOracle
      { method := "POST", authHeader := some "Bearer s",
        body := some (Js.obj [("products", Js.arr [Js.obj [("title", Js.str "iPhone 14"),
          ("price_eur", Js.num (.val 500))]])]) }
      "scan"
      { source := "vercel_scan_api", command := "scan",
        products := [Js.obj [("title", Js.str "iPhone 14"),
          ("price_eur", Js.num (.val 500))]] }
      (by exact List.Mem.head _)⟩

/-- Witness for C10 at a concrete `/status` run whose dispatch is the
first outbound call. -/
theorem router_dispatch_payload_invariant_witness :
    DispatchPayload.source
        { source := "telegram", command := "status", chat_id := "123",
          user_id := "9" } = "telegram" ∧
      (DispatchPayload.command
          { source := "telegram", command := "status", chat_id := "123",
            user_id := "9" } = "scan" ∨
        DispatchPayload.command
          { source := "telegram", command := "status", chat_id := "123",
            user_id := "9" } = "status" ∨
        DispatchPayload.command
          { source := "telegram", command := "status", chat_id := "123",
            user_id := "9" } = "last") ∧
      DispatchPayload.chat_id
          { source := "telegram", command := "status", chat_id := "123",
            user_id := "9" } =
        toString ((TelegramWebhook.routerChatId
          { method := "POST",
            body := some { message := some { chatId := some 123, fromId := some 9,
                                             text := some "/status" } } }).getD 0) ∧
      DispatchPayload.user_id
          { source := "telegram", command := "status", chat_id := "123",
            user_id := "9" } =
        TelegramWebhook.idOrEmptyStr (TelegramWebhook.routerUserId
          { method := "POST",
            body := some { message := some { chatId := some 123, fromId := some 9,
                                             text := some "/status" } } }) ∧
      (TelegramWebhook.routerUserId
          { method := "POST",
            body := some { message := some { chatId := some 123, fromId := some 9,
                                             text := some "/status" } } } = none →
        DispatchPayload.user_id
          { source := "telegram", command := "status", chat_id := "123",
            user_id := "9" } = "") :=
  router_dispatch_payload_invariant
    { botToken := some "token", githubToken := some "ghp",
      githubOwner := some "owner", githubRepo := some "repo" }
    sampleHost okOracle
    { method := "POST",
      body := some { message := some { chatId := some 123, fromId := some 9,
                                       text := some "/status" } } }
    "scan"
    { source := "telegram", command := "status", chat_id := "123", user_id := "9" }
    (by exact List.Mem.head _)
